import Mathlib

/-!
Shallow embedding of the conversation-routing / human-handoff core of the
`simplechat` backend (`src/backend/app`), sufficient to settle the frozen
claims about the handoff coordinator, the chat relay, the connection
registry and the message/conversation data model.

Modelling conventions:
* The relational store (`conversations`, `messages`, `handoff_requests`,
  `topic_stats` tables) is a `DB` record of lists; `session.exec(select...)`
  becomes `List.find?` / `List.filter` over those lists, and a SQLModel
  update-then-commit becomes a point update of the list.  Primary keys
  guarantee uniqueness of `uuid` / `id`, so a point update written as a
  guarded `List.map` coincides with updating the selected row.
* `uuid.uuid4()` generation of conversation uuids is modelled as a fresh
  counter `next_conversation_uuid` (the only property the code relies on is
  freshness); message and request ids are auto-increment integers exactly as
  in the schema.
* `datetime.utcnow()` is modelled by an explicit `now : Nat` argument.
* External collaborators (the LLM generator, the explicit-handoff
  classifier, the regex/LLM detail extractors, the credit service, the
  network send of a websocket frame) are passed in as oracle arguments;
  everything the repository's own code does with their results is embedded
  faithfully.
* Python truthiness tests on optional strings (`if not x`) are modelled by
  `strTruthy`.
-/

namespace SimpleChat

/-- Python truthiness of an optional string: `None` and `""` are falsy. -/
def strTruthy : Option String → Bool
  | none => false
  | some s => !(s == "")

/-- Row of the `conversations` table (`app/models.py`, class `Conversation`). -/
structure Conversation where
  uuid : Nat
  chatbot_uuid : String
  customer_name : Option String
  customer_email : Option String
  customer_phone : Option String
  session_id : String
  client_uuid : Option String
  status : String
  handoff_status : String
  assigned_to_user_uuid : Option String
  created_at : Nat
  updated_at : Nat
deriving Repr, DecidableEq

/-- Row of the `messages` table (`app/models.py`, class `Message`). -/
structure Message where
  id : Nat
  conversation_uuid : Nat
  role : String
  content : String
  feedback : Option String
  created_at : Nat
  topic : Option String
deriving Repr, DecidableEq

/-- Row of the `handoff_requests` table (`app/models.py`, class `HandoffRequest`). -/
structure HandoffRequest where
  id : Nat
  conversation_uuid : Nat
  chatbot_uuid : String
  status : String
  requested_at : Nat
  accepted_at : Option Nat
  accepted_by_user_uuid : Option String
  resolved_at : Option Nat
  reason : Option String
deriving Repr, DecidableEq

/-- Row of the `topic_stats` table (`app/models.py`, class `TopicStat`). -/
structure TopicStat where
  id : Nat
  chatbot_uuid : String
  topic : String
  message_count : Nat
  updated_at : Nat
deriving Repr, DecidableEq

/-- The persistent store: the relational tables plus auto-increment /
fresh-uuid counters. `chatbots` keeps just the uuids of existing chatbots
(the only chatbot fact the embedded operations consult is existence). -/
structure DB where
  chatbots : List String
  conversations : List Conversation
  messages : List Message
  handoff_requests : List HandoffRequest
  topic_stats : List TopicStat
  next_message_id : Nat
  next_request_id : Nat
  next_stat_id : Nat
  next_conversation_uuid : Nat
deriving Repr, DecidableEq

/-- `select(Conversation).where(Conversation.uuid == u).first()`. -/
def findConversation (db : DB) (u : Nat) : Option Conversation :=
  db.conversations.find? (fun c => c.uuid == u)

/-- `select(HandoffRequest).where(conversation_uuid == cu).where(status == "pending").first()`. -/
def findPendingRequest (db : DB) (cu : Nat) : Option HandoffRequest :=
  db.handoff_requests.find? (fun r => r.conversation_uuid == cu && r.status == "pending")

/-- `select(HandoffRequest).where(HandoffRequest.id == i).first()`. -/
def findRequestById (db : DB) (i : Nat) : Option HandoffRequest :=
  db.handoff_requests.find? (fun r => r.id == i)

/-- `select(Message).where(Message.id == i).first()` / `db.get(Message, i)`. -/
def findMessageById (db : DB) (i : Nat) : Option Message :=
  db.messages.find? (fun m => m.id == i)

/-- Point update of the conversation row with uuid `u` (SQLModel
`session.add` of a mutated selected row; uuid is the primary key). -/
def setConversation (db : DB) (u : Nat) (f : Conversation → Conversation) : DB :=
  { db with conversations := db.conversations.map (fun c => if c.uuid == u then f c else c) }

/-- The handoff status of the conversation with uuid `u`, as an observation. -/
def statusOf (db : DB) (u : Nat) : Option String :=
  (findConversation db u).map (fun c => c.handoff_status)

namespace HandoffService

/-- `HandoffService.create_handoff_request`
(`app/services/handoff_service.py`, lines 10-48): if a pending request for
the conversation exists, return it unchanged; otherwise create a new
pending request, set the conversation's `handoff_status` to `"requested"`
(when the conversation exists; `setConversation` is the identity when the
uuid matches no row), and commit both. -/
def create_handoff_request (db : DB) (conversation_uuid : Nat) (chatbot_uuid : String)
    (reason : Option String) (now : Nat) : HandoffRequest × DB :=
  match findPendingRequest db conversation_uuid with
  | some existing => (existing, db)
  | none =>
    let handoff_request : HandoffRequest :=
      { id := db.next_request_id
        conversation_uuid := conversation_uuid
        chatbot_uuid := chatbot_uuid
        status := "pending"
        requested_at := now
        accepted_at := none
        accepted_by_user_uuid := none
        resolved_at := none
        reason := reason }
    let db1 := setConversation db conversation_uuid
      (fun c => { c with handoff_status := "requested" })
    (handoff_request,
      { db1 with
          handoff_requests := db1.handoff_requests ++ [handoff_request]
          next_request_id := db1.next_request_id + 1 })

/-- The two `ValueError`s of `accept_handoff_request`, as the spec's typed
failures: `NotFound` and `StateConflict` (which in the source carries the
current status in its message). -/
inductive AcceptError where
  | notFound
  | stateConflict (current : String)
deriving Repr, DecidableEq

/-- `HandoffService.accept_handoff_request`
(`app/services/handoff_service.py`, lines 50-86): `NotFound` when no
request has the id; `StateConflict` when its status is not `"pending"`
(raised before any mutation, so the store is unchanged); otherwise set
status/accepted-at/accepted-by on the request, and `handoff_status =
"human"`, `assigned_to_user_uuid` on the conversation, in one commit. -/
def accept_handoff_request (db : DB) (handoff_request_id : Nat) (user_uuid : String)
    (now : Nat) : Except AcceptError (HandoffRequest × DB) :=
  match findRequestById db handoff_request_id with
  | none => .error .notFound
  | some handoff_request =>
    if !(handoff_request.status == "pending") then
      .error (.stateConflict handoff_request.status)
    else
      let accepted : HandoffRequest :=
        { handoff_request with
            status := "accepted"
            accepted_at := some now
            accepted_by_user_uuid := some user_uuid }
      let db1 := setConversation db handoff_request.conversation_uuid
        (fun c => { c with handoff_status := "human", assigned_to_user_uuid := some user_uuid })
      .ok (accepted,
        { db1 with
            handoff_requests :=
              db1.handoff_requests.map
                (fun r => if r.id == handoff_request_id then accepted else r) })

end HandoffService

/-- Python `str.lower()`, character by character (used by the source's
substring checks on generated responses). -/
def lowerStr (s : String) : String := ⟨s.data.map Char.toLower⟩

/-- Python `needle in hay` on strings: `needle` occurs as a contiguous
subsequence of `hay`. -/
def containsSeq : List Char → List Char → Bool
  | n, [] => n.isEmpty
  | n, c :: t => n.isPrefixOf (c :: t) || containsSeq n t

/-- Python `str.strip()`. -/
def pyStrip (s : String) : String :=
  ⟨((s.data.dropWhile Char.isWhitespace).reverse.dropWhile Char.isWhitespace).reverse⟩

/-- Results of the three detail extractors on one message text
(`extract_email` / `extract_phone` regexes and the `extract_name` LLM call
of `app/services/conversation_details_service.py`); external collaborators,
passed as an oracle. -/
structure ExtractedDetails where
  email : Option String
  phone : Option String
  name : Option String
deriving Repr, DecidableEq

/-- The email block of `update_conversation_details`: extract only when the
current value is falsy, keep it when the extractor produced nothing. -/
def update_email_field (c : Conversation) (d : ExtractedDetails) : Conversation × Bool :=
  if !(strTruthy c.customer_email) && strTruthy d.email then
    ({ c with customer_email := d.email }, true)
  else (c, false)

/-- The phone block of `update_conversation_details`. -/
def update_phone_field (c : Conversation) (d : ExtractedDetails) : Conversation × Bool :=
  if !(strTruthy c.customer_phone) && strTruthy d.phone then
    ({ c with customer_phone := d.phone }, true)
  else (c, false)

/-- The name block of `update_conversation_details`: also fills over the
`"Anonymous"` placeholder. -/
def update_name_field (c : Conversation) (d : ExtractedDetails) : Conversation × Bool :=
  if (!(strTruthy c.customer_name) || c.customer_name == some "Anonymous")
      && strTruthy d.name then
    ({ c with customer_name := d.name }, true)
  else (c, false)

/-- `ConversationDetailsService.update_conversation_details`
(`app/services/conversation_details_service.py`, lines 97-135): fill
`customer_email` / `customer_phone` only when currently falsy, and
`customer_name` only when falsy or equal to the `"Anonymous"` placeholder;
each only when the extractor produced a truthy value.  Returns the updated
row and the `updated` flag. -/
def update_conversation_details (conversation : Conversation) (d : ExtractedDetails) :
    Conversation × Bool :=
  let r1 := update_email_field conversation d
  let r2 := update_phone_field r1.1 d
  let r3 := update_name_field r2.1 d
  (r3.1, r1.2 || r2.2 || r3.2)

/-- The detail service applied to the stored conversation row (the
`session.add`/`session.commit` performed when `updated`; committing an
unchanged row is the identity, so the write-back is modelled
unconditionally). -/
def apply_conversation_details (db : DB) (u : Nat) (d : ExtractedDetails) : DB :=
  setConversation db u (fun c => (update_conversation_details c d).1)

namespace ChatService

/-- Outcome of the structured-output LLM call in
`ChatService._generate_response`: the generated text and the
`should_offer_handoff` flag; an external collaborator, passed as an
oracle. -/
structure GenResult where
  response : String
  should_offer_handoff : Bool
deriving Repr, DecidableEq

/-- The source's check whether a response already mentions a handoff:
`"customer service" not in ai_response.lower() and "representative" not in
ai_response.lower()` (negated). -/
def mentions_handoff_offer (s : String) : Bool :=
  containsSeq "customer service".data (lowerStr s).data
    || containsSeq "representative".data (lowerStr s).data

/-- `ChatService._prepare_chat_run` (`app/services/chat_service.py`,
lines 248-336): verify the chatbot exists, check and deduct workspace
credits (the credit store itself is external; its verdict is the
`has_credits` oracle and the raised message is the source's), verify the
conversation exists, persist the inbound message as `role="user"` and
commit, then run the detail extraction.  The background topic-classification
enqueue has no effect on this store. -/
def prepare_chat_run (db : DB) (chatbot_uuid : String) (conversation_uuid : Nat)
    (user_message : String) (has_credits : Bool) (details : ExtractedDetails)
    (now : Nat) : Except String DB :=
  if !(db.chatbots.contains chatbot_uuid) then .error "Chatbot not found"
  else if !has_credits then
    .error "No message credits remaining. Your workspace has reached its monthly limit. Please upgrade your plan."
  else
    match findConversation db conversation_uuid with
    | none => .error "Conversation not found"
    | some _ =>
      let user_msg : Message :=
        { id := db.next_message_id
          conversation_uuid := conversation_uuid
          role := "user"
          content := user_message
          feedback := none
          created_at := now
          topic := none }
      let db1 :=
        { db with
            messages := db.messages ++ [user_msg]
            next_message_id := db.next_message_id + 1 }
      .ok (apply_conversation_details db1 conversation_uuid details)

/-- `ChatService.process_message` (`app/services/chat_service.py`,
lines 338-416, non-streaming path): after `_prepare_chat_run`, consult the
explicit-handoff classifier (`_user_explicitly_requests_handoff`, an LLM
oracle) and the generator; append the offer sentence when the generator
wants a handoff but did not mention it; override the flag and the reply
when the user explicitly asked; persist the assistant message; when the
flag is set, call `HandoffService.create_handoff_request` with the
source's reason string; finally touch `conversation.updated_at`. -/
def process_message (db : DB) (chatbot_uuid : String) (conversation_uuid : Nat)
    (user_message : String) (has_credits : Bool) (details : ExtractedDetails)
    (user_explicitly_requests_handoff : Bool) (gen : GenResult) (now : Nat) :
    Except String (String × DB) :=
  match prepare_chat_run db chatbot_uuid conversation_uuid user_message has_credits details now with
  | .error e => .error e
  | .ok db1 =>
    let ai0 := gen.response
    let ai1 :=
      if gen.should_offer_handoff && !(mentions_handoff_offer ai0) then
        ai0 ++ "\n\nWould you like me to connect you with a customer service representative who can help you better?"
      else ai0
    let should_offer_handoff :=
      if user_explicitly_requests_handoff then true else gen.should_offer_handoff
    let ai2 :=
      if user_explicitly_requests_handoff && !(mentions_handoff_offer ai1) then
        "I understand you\x27d like to speak with a customer service representative. Let me connect you with someone who can help you better."
      else ai1
    let ai_msg : Message :=
      { id := db1.next_message_id
        conversation_uuid := conversation_uuid
        role := "assistant"
        content := ai2
        feedback := none
        created_at := now
        topic := none }
    let db2 :=
      { db1 with
          messages := db1.messages ++ [ai_msg]
          next_message_id := db1.next_message_id + 1 }
    let db3 :=
      if should_offer_handoff then
        (HandoffService.create_handoff_request db2 conversation_uuid chatbot_uuid
          (some (if user_explicitly_requests_handoff then
                  "User explicitly requested customer service"
                else "AI determined handoff is needed")) now).2
      else db2
    .ok (ai2, setConversation db3 conversation_uuid (fun c => { c with updated_at := now }))

/-- How the streamed LLM call of `stream_message` ends: completion with the
forwarded chunks, or an exception raised mid-stream after some chunks were
already forwarded.  External collaborator, passed as an oracle. -/
inductive StreamOutcome where
  | success (chunks : List String)
  | failure (chunks : List String) (errMsg : String)
deriving Repr, DecidableEq

/-- `ChatService.stream_message` (`app/services/chat_service.py`,
lines 418-486, streaming path): after `_prepare_chat_run`, stream the raw
LLM (no structured output, no explicit-handoff classifier, no handoff
request creation); on completion persist the assembled text as the
assistant message and touch `updated_at`.  Returns the result (or the
exception's message), the store, and the chunks handed to `on_chunk`. -/
def stream_message (db : DB) (chatbot_uuid : String) (conversation_uuid : Nat)
    (user_message : String) (has_credits : Bool) (details : ExtractedDetails)
    (outcome : StreamOutcome) (now : Nat) :
    Except String String × DB × List String :=
  match prepare_chat_run db chatbot_uuid conversation_uuid user_message has_credits details now with
  | .error e => (.error e, db, [])
  | .ok db1 =>
    match outcome with
    | .failure chunks errMsg => (.error errMsg, db1, chunks)
    | .success chunks =>
      let full_response := String.join chunks
      let ai_msg : Message :=
        { id := db1.next_message_id
          conversation_uuid := conversation_uuid
          role := "assistant"
          content := full_response
          feedback := none
          created_at := now
          topic := none }
      let db2 :=
        { db1 with
            messages := db1.messages ++ [ai_msg]
            next_message_id := db1.next_message_id + 1 }
      (.ok full_response,
        setConversation db2 conversation_uuid (fun c => { c with updated_at := now }),
        chunks)

/-- `ChatService.create_conversation` (`app/services/chat_service.py`,
lines 488-511): `customer_name or "Anonymous"` in the constructor. -/
def create_conversation (db : DB) (chatbot_uuid : String) (session_id : String)
    (client_uuid : Option String) (customer_name : Option String)
    (customer_email : Option String) (now : Nat) : Conversation × DB :=
  let conversation : Conversation :=
    { uuid := db.next_conversation_uuid
      chatbot_uuid := chatbot_uuid
      customer_name := if strTruthy customer_name then customer_name else some "Anonymous"
      customer_email := customer_email
      customer_phone := none
      session_id := session_id
      client_uuid := client_uuid
      status := "active"
      handoff_status := "ai"
      assigned_to_user_uuid := none
      created_at := now
      updated_at := now }
  (conversation,
    { db with
        conversations := db.conversations ++ [conversation]
        next_conversation_uuid := db.next_conversation_uuid + 1 })

/-- The resumption lookup of `get_or_create_conversation`:
`select(Conversation).where(chatbot_uuid).where(session_id)
.where(status == "active").first()` — keyed by the exact session id; the
client uuid plays no part. -/
def find_active_conversation (db : DB) (chatbot_uuid session_id : String) :
    Option Conversation :=
  db.conversations.find?
    (fun c => c.chatbot_uuid == chatbot_uuid && c.session_id == session_id
      && c.status == "active")

/-- `ChatService.get_or_create_conversation` (`app/services/chat_service.py`,
lines 513-548): reuse an active conversation matching this chatbot and this
exact session id; otherwise always create a new conversation.  The client
uuid is not consulted for the lookup. -/
def get_or_create_conversation (db : DB) (chatbot_uuid : String) (session_id : String)
    (client_uuid : Option String) (now : Nat) : Conversation × DB :=
  match find_active_conversation db chatbot_uuid session_id with
  | some conversation => (conversation, db)
  | none => create_conversation db chatbot_uuid session_id client_uuid none none now

end ChatService

/-- `app/tasks.py`, `classify_message_topic` (lines 375-486): look up the
message, skip when the topic is already set (idempotent), otherwise take
the LLM's verdict (oracle `llm_topic`; `none` covers a missing API key,
a failed import and an LLM error), strip and truncate it to 100 characters,
set it on the message and bump the per-chatbot `TopicStat` aggregate. -/
def classify_message_topic (db : DB) (message_id : Nat) (chatbot_uuid : String)
    (llm_topic : Option String) (now : Nat) : Option String × DB :=
  match findMessageById db message_id with
  | none => (none, db)
  | some message =>
    match message.topic with
    | some t => (some t, db)
    | none =>
      match llm_topic with
      | none => (none, db)
      | some raw =>
        let topic := pyStrip raw
        if topic == "" then (none, db)
        else
          let topic_normalized := topic.take 100
          let db1 :=
            { db with
                messages := db.messages.map
                  (fun (m : Message) =>
                    if m.id == message_id then { m with topic := some topic_normalized } else m) }
          let db2 :=
            match db1.topic_stats.find?
                (fun (s : TopicStat) => s.chatbot_uuid == chatbot_uuid && s.topic == topic_normalized) with
            | none =>
              { db1 with
                  topic_stats := db1.topic_stats ++
                    [({ id := db1.next_stat_id
                        chatbot_uuid := chatbot_uuid
                        topic := topic_normalized
                        message_count := 1
                        updated_at := now } : TopicStat)]
                  next_stat_id := db1.next_stat_id + 1 }
            | some _ =>
              { db1 with
                  topic_stats := db1.topic_stats.map
                    (fun (s : TopicStat) =>
                      if s.chatbot_uuid == chatbot_uuid && s.topic == topic_normalized then
                        { s with message_count := s.message_count + 1, updated_at := now }
                      else s) }
          (some topic_normalized, db2)

/-- Result of the `submit_feedback` route: success with the refreshed
message, 404 (message not found) or 400 (not an assistant message). -/
inductive FeedbackResult where
  | success (m : Message)
  | notFound
  | wrongRole
deriving Repr, DecidableEq

/-- `app/api/routes/chat.py`, `submit_feedback` (lines 797-850): 404 when
the message does not exist, 400 when its role is not `"assistant"`,
otherwise unconditionally assign `message.feedback` and commit — there is
no already-set check. -/
def submit_feedback (db : DB) (message_id : Nat) (fb : String) : FeedbackResult × DB :=
  match findMessageById db message_id with
  | none => (.notFound, db)
  | some message =>
    if !(message.role == "assistant") then (.wrongRole, db)
    else
      let updated := { message with feedback := some fb }
      (.success updated,
        { db with
            messages := db.messages.map
              (fun m => if m.id == message_id then updated else m) })

/-! ## The websocket relay (`app/api/routes/chat.py`, `websocket_endpoint`) -/

/-- Outbound frames of the relay, by their `type` discriminator. -/
inductive Frame where
  | typing (is_typing : Bool)
  | chatMessage (role : String) (content : String)
  | messageChunk (content : String)
  | messageComplete (content : String) (message_id : Option Nat)
  | errorFrame (message : String)
  | pong
deriving Repr, DecidableEq

/-- Observable actions of one iteration of the relay's widget read loop:
frames sent to the originating session via the connection manager,
broadcasts to the tenant dashboard group, invocations of the response
generator (`chat_service.stream_message`), and termination of the loop. -/
inductive WsEvent where
  | sendToSession (session_id : String) (frame : Frame)
  | broadcastDashboard (chatbot_uuid : String) (etype : String)
      (conversation_uuid : Nat) (role : Option String)
  | generatorInvoked (conversation_uuid : Nat)
  | closeConnection
deriving Repr, DecidableEq

/-- `select(Message).where(conversation_uuid).where(role == "assistant")
.order_by(created_at.desc()).limit(1)`: messages are appended in creation
order and timestamps are nondecreasing, so the latest row is the last
matching element. -/
def last_assistant_message_id (db : DB) (conversation_uuid : Nat) : Option Nat :=
  ((db.messages.filter
      (fun m => m.conversation_uuid == conversation_uuid && m.role == "assistant")).getLast?).map
    (fun m => m.id)

/-- One iteration of the widget read loop for a non-empty `message` frame
with the conversation already bound (`app/api/routes/chat.py`,
lines 222-383): refresh the conversation's `handoff_status` from the store,
then
* `"human"`: persist the inbound message as `role="user"`, touch
  `updated_at`, run the detail extraction, broadcast `new_message` to the
  dashboard — no generator, no frame back to the customer session;
* `"requested"`: the same, plus the single fixed acknowledgment reply;
* otherwise (the automated path): send `typing:true`, invoke
  `chat_service.stream_message`, forward each chunk, and either finish with
  `typing:false`, `message_complete` (carrying the persisted assistant
  message id) and a dashboard broadcast, or — on any exception — send
  `typing:false` then an `error` frame carrying `str(e)` (falling back to
  `"Failed to process message"` when empty) and keep the loop alive.
A vanished conversation row makes `session.refresh` raise out of the loop,
ending the connection (`closeConnection`). -/
def handle_widget_message (db : DB) (chatbot_uuid : String) (session_id : String)
    (conversation_uuid : Nat) (user_message : String) (has_credits : Bool)
    (details : ExtractedDetails) (outcome : ChatService.StreamOutcome) (now : Nat) :
    DB × List WsEvent :=
  match findConversation db conversation_uuid with
  | none => (db, [.closeConnection])
  | some conversation =>
    if conversation.handoff_status == "human" then
      let user_msg : Message :=
        { id := db.next_message_id
          conversation_uuid := conversation_uuid
          role := "user"
          content := user_message
          feedback := none
          created_at := now
          topic := none }
      let db1 :=
        { db with
            messages := db.messages ++ [user_msg]
            next_message_id := db.next_message_id + 1 }
      let db2 := setConversation db1 conversation_uuid (fun c => { c with updated_at := now })
      let db3 := apply_conversation_details db2 conversation_uuid details
      (db3, [.broadcastDashboard chatbot_uuid "new_message" conversation_uuid (some "user")])
    else if conversation.handoff_status == "requested" then
      let user_msg : Message :=
        { id := db.next_message_id
          conversation_uuid := conversation_uuid
          role := "user"
          content := user_message
          feedback := none
          created_at := now
          topic := none }
      let db1 :=
        { db with
            messages := db.messages ++ [user_msg]
            next_message_id := db.next_message_id + 1 }
      let db2 := setConversation db1 conversation_uuid (fun c => { c with updated_at := now })
      let db3 := apply_conversation_details db2 conversation_uuid details
      (db3,
        [.broadcastDashboard chatbot_uuid "new_message" conversation_uuid (some "user"),
         .sendToSession session_id
           (.chatMessage "assistant"
             "Your message has been received. A customer service representative will respond shortly.")])
    else
      let r := ChatService.stream_message db chatbot_uuid conversation_uuid user_message
        has_credits details outcome now
      let chunk_events := r.2.2.map (fun c => WsEvent.sendToSession session_id (.messageChunk c))
      let opening := [WsEvent.sendToSession session_id (.typing true),
                      WsEvent.generatorInvoked conversation_uuid]
      match r.1 with
      | .ok full_response =>
        (r.2.1,
          opening ++ chunk_events ++
            [.sendToSession session_id (.typing false),
             .sendToSession session_id
               (.messageComplete full_response (last_assistant_message_id r.2.1 conversation_uuid)),
             .broadcastDashboard chatbot_uuid "new_message" conversation_uuid (some "assistant")])
      | .error e =>
        let error_message := if e == "" then "Failed to process message" else e
        (r.2.1,
          opening ++ chunk_events ++
            [.sendToSession session_id (.typing false),
             .sendToSession session_id (.errorFrame error_message)])

/-! ## The connection registry (`app/services/websocket_manager.py`) -/

/-- Lookup in a Python dict modelled as an association list. -/
def alistGet {α : Type} (l : List (String × α)) (k : String) : Option α :=
  (l.find? (fun p => p.1 == k)).map (fun p => p.2)

/-- `dict[k] = f(dict[k])` for a key already present (absent keys are left
alone, matching the guarded accesses in the source). -/
def alistUpdate {α : Type} (l : List (String × α)) (k : String) (f : α → α) :
    List (String × α) :=
  l.map (fun p => if p.1 == k then (p.1, f p.2) else p)

/-- `ConnectionManager` state: live connections are abstract ids; the three
dicts of the source (`active_connections`, `dashboard_connections`,
`dashboard_session_map`). -/
structure ConnMgr where
  active_connections : List (String × List Nat)
  dashboard_connections : List (String × List Nat)
  dashboard_session_map : List (String × String)
deriving Repr, DecidableEq

/-- Python `str.startswith`, character by character. -/
def pyStartsWith (s p : String) : Bool := p.data.isPrefixOf s.data

/-- Python `set.add` on a dict-of-sets entry, creating the entry when
absent (`if k not in d: d[k] = set()` then `d[k].add(conn)`). -/
def alistAddConn (l : List (String × List Nat)) (k : String) (conn : Nat) :
    List (String × List Nat) :=
  if l.any (fun p => p.1 == k) then
    alistUpdate l k (fun conns => if conns.contains conn then conns else conns ++ [conn])
  else l ++ [(k, [conn])]

/-- Python `d[k] = v` on a dict. -/
def alistSetVal (l : List (String × String)) (k v : String) : List (String × String) :=
  if l.any (fun p => p.1 == k) then
    l.map (fun p => if p.1 == k then (p.1, v) else p)
  else l ++ [(k, v)]

/-- Python `del d[k]`. -/
def alistDelete {α : Type} (l : List (String × α)) (k : String) : List (String × α) :=
  l.filter (fun p => !(p.1 == k))

namespace ConnMgr

/-- `ConnectionManager.connect` (`app/services/websocket_manager.py`,
lines 15-30), after the transport accept: a truthy chatbot uuid together
with the reserved `dashboard_` session-key prefix registers the connection
in the chatbot's dashboard group and records the session in the reverse
index `dashboard_session_map`; every other connection goes into the
per-session widget group. -/
def connect (m : ConnMgr) (websocket : Nat) (session_id : String)
    (chatbot_uuid : Option String) : ConnMgr :=
  if strTruthy chatbot_uuid && pyStartsWith session_id "dashboard_" then
    { m with
        dashboard_connections :=
          alistAddConn m.dashboard_connections (chatbot_uuid.getD "") websocket
        dashboard_session_map :=
          alistSetVal m.dashboard_session_map session_id (chatbot_uuid.getD "") }
  else
    { m with active_connections := alistAddConn m.active_connections session_id websocket }

/-- `ConnectionManager.disconnect` (`app/services/websocket_manager.py`,
lines 32-48): when the session key is in the reverse index, discard the
websocket from that chatbot's dashboard group, drop the group when it
became empty, and delete the reverse-index entry — unconditionally, even
when other connections registered under the same session key remain in the
group; otherwise discard from the widget group. -/
def disconnect (m : ConnMgr) (websocket : Nat) (session_id : String) : ConnMgr :=
  match alistGet m.dashboard_session_map session_id with
  | some cb =>
    let dc :=
      if m.dashboard_connections.any (fun p => p.1 == cb) then
        if (((alistGet m.dashboard_connections cb).getD []).filter
            (fun c => !(c == websocket))).isEmpty then
          alistDelete m.dashboard_connections cb
        else
          alistUpdate m.dashboard_connections cb
            (fun conns => conns.filter (fun c => !(c == websocket)))
      else m.dashboard_connections
    { m with
        dashboard_connections := dc
        dashboard_session_map := alistDelete m.dashboard_session_map session_id }
  | none =>
    if m.active_connections.any (fun p => p.1 == session_id) then
      { m with
          active_connections :=
            if (((alistGet m.active_connections session_id).getD []).filter
                (fun c => !(c == websocket))).isEmpty then
              alistDelete m.active_connections session_id
            else
              alistUpdate m.active_connections session_id
                (fun conns => conns.filter (fun c => !(c == websocket))) }
    else m

/-- The dead-connection cleanup inside `broadcast_to_dashboard`'s per-send
`except` branch (`app/services/websocket_manager.py`, lines 78-86): scan
`dashboard_session_map` for any session mapped to this chatbot; when one is
found, discard the failed connection from that chatbot's dashboard group
(set `discard` removes exactly that element) and stop scanning. -/
def dashDiscard (m : ConnMgr) (chatbot_uuid : String) (conn : Nat) : ConnMgr :=
  match m.dashboard_session_map.find? (fun p => p.2 == chatbot_uuid) with
  | none => m
  | some _ =>
    if m.dashboard_connections.any (fun p => p.1 == chatbot_uuid) then
      { m with
          dashboard_connections :=
            alistUpdate m.dashboard_connections chatbot_uuid
              (fun conns => conns.filter (fun c => !(c == conn))) }
    else m

/-- The body of `broadcast_to_dashboard`'s send loop: attempt the send; on
failure clean up the dead connection, then continue either way. -/
def broadcastStep (chatbot_uuid : String) (send_ok : Nat → Bool)
    (acc : ConnMgr × List Nat) (conn : Nat) : ConnMgr × List Nat :=
  if send_ok conn then (acc.1, acc.2 ++ [conn])
  else (dashDiscard acc.1 chatbot_uuid conn, acc.2 ++ [conn])

/-- `ConnectionManager.broadcast_to_dashboard`
(`app/services/websocket_manager.py`, lines 64-86): return immediately —
zero send attempts — when the chatbot has no (or an empty) dashboard group;
otherwise snapshot the group and attempt `send_json` on every connection in
it (oracle `send_ok`), cleaning up each failed connection via `dashDiscard`
and continuing with the rest.  Returns the registry and the list of
attempted sends in order. -/
def broadcast_to_dashboard (m : ConnMgr) (chatbot_uuid : String) (send_ok : Nat → Bool) :
    ConnMgr × List Nat :=
  match alistGet m.dashboard_connections chatbot_uuid with
  | none => (m, [])
  | some conns =>
    if conns.isEmpty then (m, [])
    else conns.foldl (broadcastStep chatbot_uuid send_ok) (m, [])

end ConnMgr

/-! ## The REST surface used by the claims (`app/api/routes/chat.py`) -/

/-- The customer-info update of the REST `send_message` endpoint
(`app/api/routes/chat.py`, lines 420-426): any truthy `customer_name` /
`customer_email` supplied in the request body is assigned unconditionally,
overwriting whatever the conversation already holds. -/
def apply_request_customer_info (c : Conversation)
    (req_customer_name req_customer_email : Option String) : Conversation :=
  let c1 := if strTruthy req_customer_name then
      { c with customer_name := req_customer_name } else c
  if strTruthy req_customer_email then
    { c1 with customer_email := req_customer_email } else c1

/-- `send_message` (`app/api/routes/chat.py`, lines 396-449, the REST
fallback): 404 when the chatbot does not exist; `get_or_create_conversation`
for the session (no client uuid on this path); overwrite `customer_name` /
`customer_email` with any truthy values from the request body; then
`process_message`, answering with the latest assistant message. -/
def send_message (db : DB) (chatbot_uuid : String) (req_message : String)
    (req_session_id : String) (req_customer_name : Option String)
    (req_customer_email : Option String) (has_credits : Bool)
    (details : ExtractedDetails) (user_explicitly_requests_handoff : Bool)
    (gen : ChatService.GenResult) (now : Nat) : Except String (Option Nat × DB) :=
  if !(db.chatbots.contains chatbot_uuid) then .error "Chatbot not found"
  else
    let r := ChatService.get_or_create_conversation db chatbot_uuid req_session_id none now
    let conversation := r.1
    let db1 := setConversation r.2 conversation.uuid
      (fun c => apply_request_customer_info c req_customer_name req_customer_email)
    match ChatService.process_message db1 chatbot_uuid conversation.uuid req_message
        has_credits details user_explicitly_requests_handoff gen now with
    | .error e => .error e
    | .ok res => .ok (last_assistant_message_id res.2 conversation.uuid, res.2)

/-- `get_conversation_messages` (`app/api/routes/chat.py`, lines 567-639),
the retrieval part: messages of exactly this conversation, in creation
order (insertion order here), with offset/limit pagination. -/
def get_conversation_messages (db : DB) (conversation_uuid : Nat)
    (limit offset : Nat) : List Message :=
  (((db.messages.filter (fun m => m.conversation_uuid == conversation_uuid))).drop offset).take limit

/-! ## Shared lemmas -/

/-- `find?` commutes with a `map` whose function preserves the predicate. -/
theorem find?_map_preserve {α : Type} (p : α → Bool) (h : α → α) (l : List α)
    (hp : ∀ a, p (h a) = p a) :
    (l.map h).find? p = (l.find? p).map h := by
  induction l with
  | nil => rfl
  | cons a t ih =>
    by_cases ha : p a = true
    · simp [List.find?_cons, hp, ha]
    · simp only [Bool.not_eq_true] at ha
      simp [List.find?_cons, hp, ha, ih]

/-- `find?` skips a prefix on which it returns `none`. -/
theorem find?_append_of_none {α : Type} (p : α → Bool) (l₁ l₂ : List α)
    (h : l₁.find? p = none) : (l₁ ++ l₂).find? p = l₂.find? p := by
  induction l₁ with
  | nil => rfl
  | cons a t ih =>
    rw [List.find?_cons] at h
    by_cases ha : p a = true
    · simp [ha] at h
    · simp only [Bool.not_eq_true] at ha
      simp only [ha, Bool.false_eq_true, if_false] at h
      simpa [List.find?_cons, ha] using ih h

theorem findConversation_some {db : DB} {u : Nat} {c : Conversation}
    (h : findConversation db u = some c) : c.uuid = u := by
  have := List.find?_some h
  simpa using this

theorem findConversation_setConversation (db : DB) (v u : Nat) (f : Conversation → Conversation)
    (hf : ∀ c, (f c).uuid = c.uuid) :
    findConversation (setConversation db v f) u
      = (findConversation db u).map (fun c => if c.uuid == v then f c else c) := by
  unfold findConversation setConversation
  apply find?_map_preserve
  intro a
  by_cases hv : (a.uuid == v) = true
  · simp [hv, hf]
  · simp only [Bool.not_eq_true] at hv
    simp [hv]

/-- `setConversation` touches only the `conversations` table. -/
theorem setConversation_handoff_requests (db : DB) (v : Nat) (f : Conversation → Conversation) :
    (setConversation db v f).handoff_requests = db.handoff_requests := rfl

theorem update_conversation_details_uuid (c : Conversation) (d : ExtractedDetails) :
    ((update_conversation_details c d).1).uuid = c.uuid := by
  unfold update_conversation_details update_email_field update_phone_field update_name_field
  dsimp only
  repeat' split
  all_goals rfl

theorem update_conversation_details_handoff_status (c : Conversation) (d : ExtractedDetails) :
    ((update_conversation_details c d).1).handoff_status = c.handoff_status := by
  unfold update_conversation_details update_email_field update_phone_field update_name_field
  dsimp only
  repeat' split
  all_goals rfl

theorem update_conversation_details_updated_at (c : Conversation) (d : ExtractedDetails) :
    ((update_conversation_details c d).1).updated_at = c.updated_at := by
  unfold update_conversation_details update_email_field update_phone_field update_name_field
  dsimp only
  repeat' split
  all_goals rfl

theorem statusOf_apply_details (db : DB) (v u : Nat) (d : ExtractedDetails) :
    statusOf (apply_conversation_details db v d) u = statusOf db u := by
  unfold statusOf apply_conversation_details
  rw [findConversation_setConversation db v u _ (fun c => update_conversation_details_uuid c d)]
  cases h : findConversation db u with
  | none => rfl
  | some c =>
    simp only [Option.map_some, Option.map_map]
    by_cases hv : c.uuid = v
    · simp [hv, update_conversation_details_handoff_status]
    · simp [hv]

theorem statusOf_setConversation_other (db : DB) (v u : Nat) (f : Conversation → Conversation)
    (hf : ∀ c, (f c).uuid = c.uuid) (hfs : ∀ c, (f c).handoff_status = c.handoff_status) :
    statusOf (setConversation db v f) u = statusOf db u := by
  unfold statusOf
  rw [findConversation_setConversation db v u f hf]
  cases h : findConversation db u with
  | none => rfl
  | some c =>
    simp only [Option.map_some, Option.map_map]
    by_cases hv : c.uuid = v
    · simp [hv, hfs]
    · simp [hv]

theorem statusOf_set_const (db : DB) (v : Nat) (f : Conversation → Conversation) (s : String)
    (hf : ∀ c, (f c).uuid = c.uuid) (hs : ∀ c, (f c).handoff_status = s)
    (hv : (findConversation db v).isSome = true) :
    statusOf (setConversation db v f) v = some s := by
  unfold statusOf
  rw [findConversation_setConversation db v v f hf]
  cases hfc : findConversation db v with
  | none => rw [hfc] at hv; simp at hv
  | some c =>
    have : c.uuid = v := findConversation_some hfc
    simp [this, hs]

theorem statusOf_set_ne (db : DB) (v u : Nat) (f : Conversation → Conversation)
    (hf : ∀ c, (f c).uuid = c.uuid) (hu : u ≠ v) :
    statusOf (setConversation db v f) u = statusOf db u := by
  unfold statusOf
  rw [findConversation_setConversation db v u f hf]
  cases hfc : findConversation db u with
  | none => rfl
  | some c =>
    have hcu : c.uuid = u := findConversation_some hfc
    simp [hcu, hu]

theorem isSome_findConversation_setConversation (db : DB) (v u : Nat)
    (f : Conversation → Conversation) (hf : ∀ c, (f c).uuid = c.uuid) :
    (findConversation (setConversation db v f) u).isSome = (findConversation db u).isSome := by
  rw [findConversation_setConversation db v u f hf]
  cases findConversation db u <;> rfl

/-- What `create_handoff_request` does when a pending request already
exists: it is returned and nothing changes. -/
theorem create_handoff_request_existing (db : DB) (cid : Nat) (cb : String)
    (reason : Option String) (t : Nat) (r : HandoffRequest)
    (h : findPendingRequest db cid = some r) :
    HandoffService.create_handoff_request db cid cb reason t = (r, db) := by
  unfold HandoffService.create_handoff_request
  rw [h]

/-- What `create_handoff_request` does when no pending request exists: a
fresh pending request for this conversation is stored, the conversation
(when it exists) moves to `"requested"` whatever its previous authority,
and every other conversation keeps its status. -/
theorem create_handoff_request_fresh (db : DB) (cid : Nat) (cb : String)
    (reason : Option String) (t : Nat) (h : findPendingRequest db cid = none) :
    (HandoffService.create_handoff_request db cid cb reason t).1.status = "pending"
    ∧ (HandoffService.create_handoff_request db cid cb reason t).1.conversation_uuid = cid
    ∧ findPendingRequest (HandoffService.create_handoff_request db cid cb reason t).2 cid
        = some (HandoffService.create_handoff_request db cid cb reason t).1
    ∧ (∀ u, u ≠ cid →
        statusOf (HandoffService.create_handoff_request db cid cb reason t).2 u = statusOf db u)
    ∧ ((findConversation db cid).isSome = true →
        statusOf (HandoffService.create_handoff_request db cid cb reason t).2 cid
          = some "requested") := by
  unfold HandoffService.create_handoff_request
  rw [h]
  dsimp only
  refine ⟨rfl, rfl, ?_, ?_, ?_⟩
  · show List.find? _ (db.handoff_requests ++ [_]) = _
    rw [find?_append_of_none _ _ _ h]
    simp [List.find?_cons]
  · intro u hu
    show statusOf (setConversation db cid
      (fun c => { c with handoff_status := "requested" })) u = statusOf db u
    unfold statusOf
    rw [findConversation_setConversation db cid u
      (fun c => { c with handoff_status := "requested" }) (fun c => rfl)]
    cases hc : findConversation db u with
    | none => rfl
    | some c =>
      have hcu : c.uuid = u := findConversation_some hc
      simp [hcu, hu]
  · intro hc
    show statusOf (setConversation db cid
      (fun c => { c with handoff_status := "requested" })) cid = some "requested"
    unfold statusOf
    rw [findConversation_setConversation db cid cid
      (fun c => { c with handoff_status := "requested" }) (fun c => rfl)]
    cases hfc : findConversation db cid with
    | none => rw [hfc] at hc; simp at hc
    | some c =>
      have hcu : c.uuid = cid := findConversation_some hfc
      simp [hcu]

/-- Replacing the row found by `find?` with a row satisfying the same
predicate makes `find?` return the replacement. -/
theorem find?_point_set {α : Type} (p : α → Bool) (l : List α) (b : α)
    (hb : p b = true) (r : α) (h : l.find? p = some r) :
    (l.map (fun x => if p x then b else x)).find? p = some b := by
  induction l with
  | nil => simp at h
  | cons a t ih =>
    by_cases ha : p a = true
    · simp [List.find?_cons, ha, hb]
    · simp only [Bool.not_eq_true] at ha
      rw [List.find?_cons] at h
      simp only [ha, Bool.false_eq_true, if_false] at h
      simpa [List.find?_cons, ha] using ih h

/-- What a successful `accept_handoff_request` did: the request existed and
was pending, the returned request is its accepted form, the request's
conversation (when it exists) moves to `"human"`, and every other
conversation keeps its status. -/
theorem accept_handoff_request_ok (db : DB) (rid : Nat) (uu : String) (t : Nat)
    (req1 : HandoffRequest) (db1 : DB)
    (h : HandoffService.accept_handoff_request db rid uu t = .ok (req1, db1)) :
    ∃ r, findRequestById db rid = some r ∧ r.status = "pending"
      ∧ req1 = { r with
          status := "accepted", accepted_at := some t, accepted_by_user_uuid := some uu }
      ∧ findRequestById db1 rid = some req1
      ∧ ((findConversation db req1.conversation_uuid).isSome = true →
          statusOf db1 req1.conversation_uuid = some "human")
      ∧ (∀ u, u ≠ req1.conversation_uuid → statusOf db1 u = statusOf db u) := by
  unfold HandoffService.accept_handoff_request at h
  cases hr : findRequestById db rid with
  | none => rw [hr] at h; exact absurd h (by simp)
  | some r =>
    rw [hr] at h
    by_cases hst : (r.status == "pending") = true
    · have hrid : (r.id == rid) = true := by
        have := List.find?_some hr
        simpa using this
      simp only [hst, Bool.not_true, Bool.false_eq_true, if_false] at h
      rw [Except.ok.injEq, Prod.mk.injEq] at h
      obtain ⟨hreq, hdb⟩ := h
      subst hreq
      subst hdb
      refine ⟨r, rfl, by simpa using hst, rfl, ?_, ?_, ?_⟩
      · have hr2 : db.handoff_requests.find? (fun (x : HandoffRequest) => x.id == rid)
            = some r := hr
        exact find?_point_set (fun (x : HandoffRequest) => x.id == rid)
          db.handoff_requests _ hrid r hr2
      · intro hc
        exact statusOf_set_const db r.conversation_uuid
          (fun c => { c with handoff_status := "human", assigned_to_user_uuid := some uu })
          "human" (fun c => rfl) (fun c => rfl) hc
      · intro u hu
        exact statusOf_set_ne db r.conversation_uuid u
          (fun c => { c with handoff_status := "human", assigned_to_user_uuid := some uu })
          (fun c => rfl) hu
    · simp only [Bool.not_eq_true] at hst
      simp [hst] at h

/-- C5: `create_handoff_request` called twice in a row on the same
conversation with no intervening accept returns the identical request (and
so the identical request id) both times, and the second call changes
nothing: it returns exactly the first call's request/store pair. -/
theorem c5_create_handoff_request_idempotent (db : DB) (cid : Nat) (cb : String)
    (r1 r2 : Option String) (t1 t2 : Nat) :
    HandoffService.create_handoff_request
        ((HandoffService.create_handoff_request db cid cb r1 t1).2) cid cb r2 t2
      = HandoffService.create_handoff_request db cid cb r1 t1 := by
  cases h : findPendingRequest db cid with
  | some existing =>
    rw [create_handoff_request_existing db cid cb r1 t1 existing h]
    exact create_handoff_request_existing db cid cb r2 t2 existing h
  | none =>
    have hpend := (create_handoff_request_fresh db cid cb r1 t1 h).2.2.1
    exact create_handoff_request_existing _ cid cb r2 t2 _ hpend

/-- C3: `accept_handoff_request` fails with `NotFound` when no request has
the id and with `StateConflict` when the request is not pending; of two
successive accepts of the same pending request the first succeeds and the
second receives `StateConflict`, and after the failed second accept the
request still carries the first acceptance's status, accepted-at and
accepted-by values. -/
theorem c3_accept_handoff_request_errors (db : DB) (rid : Nat) (u1 u2 : String)
    (t1 t2 : Nat) :
    (findRequestById db rid = none →
      HandoffService.accept_handoff_request db rid u1 t1 = .error .notFound)
    ∧ (∀ r, findRequestById db rid = some r → r.status ≠ "pending" →
        HandoffService.accept_handoff_request db rid u1 t1
          = .error (.stateConflict r.status))
    ∧ (∀ req1 db1, HandoffService.accept_handoff_request db rid u1 t1 = .ok (req1, db1) →
        HandoffService.accept_handoff_request db1 rid u2 t2
            = .error (.stateConflict "accepted")
          ∧ findRequestById db1 rid = some req1
          ∧ req1.status = "accepted"
          ∧ req1.accepted_at = some t1
          ∧ req1.accepted_by_user_uuid = some u1) := by
  refine ⟨?_, ?_, ?_⟩
  · intro h
    unfold HandoffService.accept_handoff_request
    rw [h]
  · intro r hr hst
    unfold HandoffService.accept_handoff_request
    rw [hr]
    simp [hst]
  · intro req1 db1 h
    obtain ⟨r, hr, hrp, hreq, hfind, _, _⟩ := accept_handoff_request_ok db rid u1 t1 req1 db1 h
    have hstatus : req1.status = "accepted" := by rw [hreq]
    refine ⟨?_, hfind, hstatus, by rw [hreq], by rw [hreq]⟩
    unfold HandoffService.accept_handoff_request
    rw [hfind]
    simp [hstatus]

/-- Concrete store for the witnesses: one pending handoff request (id 5)
for conversation 7, which is still in automated mode. -/
def reqPending : HandoffRequest :=
  { id := 5, conversation_uuid := 7, chatbot_uuid := "cb1", status := "pending",
    requested_at := 1, accepted_at := none, accepted_by_user_uuid := none,
    resolved_at := none, reason := some "User explicitly requested customer service" }

def convRequested : Conversation :=
  { uuid := 7, chatbot_uuid := "cb1", customer_name := some "Alice",
    customer_email := none, customer_phone := none, session_id := "sessA",
    client_uuid := some "client1", status := "active", handoff_status := "requested",
    assigned_to_user_uuid := none, created_at := 0, updated_at := 0 }

def dbPending : DB :=
  { chatbots := ["cb1"], conversations := [convRequested], messages := [],
    handoff_requests := [reqPending], topic_stats := [], next_message_id := 1,
    next_request_id := 6, next_stat_id := 1, next_conversation_uuid := 8 }

/-- The value accept stores for request 5 in `dbPending`, and the resulting
store. -/
def reqAccepted : HandoffRequest :=
  { reqPending with
      status := "accepted", accepted_at := some 2, accepted_by_user_uuid := some "op1" }

def dbAccepted : DB :=
  { dbPending with
      conversations :=
        [{ convRequested with handoff_status := "human", assigned_to_user_uuid := some "op1" }],
      handoff_requests := [reqAccepted] }

/-- Witness for C3 at the concrete store `dbPending`: accepting pending
request 5 succeeds, and a second accept of the same id conflicts while the
first acceptance's fields survive. -/
theorem c3_accept_handoff_request_errors_witness :
    HandoffService.accept_handoff_request dbPending 5 "op1" 2 = .ok (reqAccepted, dbAccepted)
    ∧ HandoffService.accept_handoff_request dbAccepted 5 "op2" 3
        = .error (.stateConflict "accepted")
    ∧ findRequestById dbAccepted 5 = some reqAccepted
    ∧ reqAccepted.accepted_at = some 2
    ∧ reqAccepted.accepted_by_user_uuid = some "op1" := by
  have hfirst : HandoffService.accept_handoff_request dbPending 5 "op1" 2
      = .ok (reqAccepted, dbAccepted) := by rfl
  have h := (c3_accept_handoff_request_errors dbPending 5 "op1" "op2" 2 3).2.2
    reqAccepted dbAccepted hfirst
  exact ⟨hfirst, h.1, h.2.1, h.2.2.2.1, h.2.2.2.2⟩

/-- A conversation already handed to a human operator, with no pending
request (its request was accepted and is gone from the pending set). -/
def convHuman : Conversation :=
  { convRequested with handoff_status := "human", assigned_to_user_uuid := some "op1" }

def dbHuman : DB :=
  { dbPending with conversations := [convHuman], handoff_requests := [] }

/-- C1 is violated by the code: with conversation 7 already human-assigned
and no pending request, `create_handoff_request` succeeds (returning a
fresh pending request) even though the current authority is `"human"`, not
automated, and it moves the conversation's response authority backwards
from `"human"` to `"requested"` — the source never consults the current
authority before writing `handoff_status = "requested"`. -/
theorem c1_counterexample :
    statusOf dbHuman 7 = some "human"
    ∧ findPendingRequest dbHuman 7 = none
    ∧ (HandoffService.create_handoff_request dbHuman 7 "cb1" none 9).1.status = "pending"
    ∧ statusOf (HandoffService.create_handoff_request dbHuman 7 "cb1" none 9).2 7
        = some "requested" :=
  ⟨rfl, rfl, rfl, rfl⟩

/-- C1 (amended): the coordinator's authority writes are exactly these —
`create_handoff_request` with a pending request already present changes
nothing; with no pending request it always succeeds and sets the
conversation's authority to `"requested"` regardless of the current
authority (so it can move a human-assigned conversation back to
`"requested"`), leaving every other conversation's authority unchanged;
`accept_handoff_request` succeeds only for an existing pending request and
then moves only that request's conversation, to `"human"`.  The
reconciliation in `get_pending_handoff_requests` and the takeover route
perform their authority writes exclusively through these two operations. -/
theorem c1_handoff_status_transitions (db : DB) (cid rid : Nat) (cb u1 : String)
    (reason : Option String) (t : Nat) :
    (∀ r, findPendingRequest db cid = some r →
        HandoffService.create_handoff_request db cid cb reason t = (r, db))
    ∧ (findPendingRequest db cid = none →
        (HandoffService.create_handoff_request db cid cb reason t).1.status = "pending"
        ∧ ((findConversation db cid).isSome = true →
            statusOf (HandoffService.create_handoff_request db cid cb reason t).2 cid
              = some "requested")
        ∧ (∀ u, u ≠ cid →
            statusOf (HandoffService.create_handoff_request db cid cb reason t).2 u
              = statusOf db u))
    ∧ (∀ req1 db1, HandoffService.accept_handoff_request db rid u1 t = .ok (req1, db1) →
        (∃ r, findRequestById db rid = some r ∧ r.status = "pending")
        ∧ ((findConversation db req1.conversation_uuid).isSome = true →
            statusOf db1 req1.conversation_uuid = some "human")
        ∧ (∀ u, u ≠ req1.conversation_uuid → statusOf db1 u = statusOf db u)) := by
  refine ⟨?_, ?_, ?_⟩
  · intro r hr
    exact create_handoff_request_existing db cid cb reason t r hr
  · intro h
    obtain ⟨h1, _, _, h4, h5⟩ := create_handoff_request_fresh db cid cb reason t h
    exact ⟨h1, h5, h4⟩
  · intro req1 db1 h
    obtain ⟨r, hr, hrp, _, _, hhuman, hother⟩ :=
      accept_handoff_request_ok db rid u1 t req1 db1 h
    exact ⟨⟨r, hr, hrp⟩, hhuman, hother⟩

/-- Witness for the amended C1 at concrete stores: creating with no pending
request moves conversation 7 (currently `"human"`) to `"requested"`, and
accepting pending request 5 moves conversation 7 to `"human"`. -/
theorem c1_handoff_status_transitions_witness :
    statusOf (HandoffService.create_handoff_request dbHuman 7 "cb1" none 9).2 7
        = some "requested"
    ∧ statusOf dbAccepted 7 = some "human" := by
  constructor
  · exact ((c1_handoff_status_transitions dbHuman 7 5 "cb1" "op1" none 9).2.1 rfl).2.1 rfl
  · have h := (c1_handoff_status_transitions dbPending 7 5 "cb1" "op1" none 2).2.2
      reqAccepted dbAccepted (by rfl)
    exact h.2.1 rfl

/-- `_prepare_chat_run` never touches the handoff-request table, never
changes any conversation's authority, and keeps the same set of existing
conversations. -/
theorem prepare_chat_run_ok_inv (db : DB) (cb : String) (cid : Nat) (msg : String)
    (hc : Bool) (details : ExtractedDetails) (t : Nat) (db1 : DB)
    (h : ChatService.prepare_chat_run db cb cid msg hc details t = .ok db1) :
    db1.handoff_requests = db.handoff_requests
    ∧ (∀ u, statusOf db1 u = statusOf db u)
    ∧ (∀ u, (findConversation db1 u).isSome = (findConversation db u).isSome) := by
  unfold ChatService.prepare_chat_run at h
  by_cases hcb : db.chatbots.contains cb = true
  · rw [hcb] at h
    cases hcred : hc with
    | false => subst hcred; exact absurd h (by simp)
    | true =>
      subst hcred
      simp only [Bool.not_true, Bool.false_eq_true, if_false] at h
      cases hfc : findConversation db cid with
      | none => rw [hfc] at h; exact absurd h (by simp)
      | some c =>
        rw [hfc] at h
        simp only [Except.ok.injEq] at h
        subst h
        refine ⟨rfl, ?_, ?_⟩
        · intro u
          rw [statusOf_apply_details]
          rfl
        · intro u
          unfold apply_conversation_details
          rw [isSome_findConversation_setConversation _ cid u _
            (fun c => update_conversation_details_uuid c details)]
          rfl
  · simp only [Bool.not_eq_true] at hcb
    rw [hcb] at h
    exact absurd h (by simp)

/-- `_prepare_chat_run` succeeds when the chatbot exists, credits remain
and the conversation exists. -/
theorem prepare_chat_run_succeeds (db : DB) (cb : String) (cid : Nat) (msg : String)
    (details : ExtractedDetails) (t : Nat)
    (hcb : db.chatbots.contains cb = true)
    (hconv : (findConversation db cid).isSome = true) :
    ∃ db1, ChatService.prepare_chat_run db cb cid msg true details t = .ok db1 := by
  unfold ChatService.prepare_chat_run
  rw [hcb]
  simp only [Bool.not_true, Bool.false_eq_true, if_false]
  cases hfc : findConversation db cid with
  | none => rw [hfc] at hconv; simp at hconv
  | some c => exact ⟨_, rfl⟩

/-- The tail of `process_message` when the handoff flag ended up set: the
`create_handoff_request` call leaves a pending request and `"requested"`
authority, surviving the final `updated_at` touch. -/
theorem process_message_tail (db2 : DB) (cid : Nat) (cb : String) (reason : Option String)
    (t : Nat) (hpend : findPendingRequest db2 cid = none)
    (hconv : (findConversation db2 cid).isSome = true) :
    (∃ req, findPendingRequest
        (setConversation (HandoffService.create_handoff_request db2 cid cb reason t).2 cid
          (fun c => { c with updated_at := t })) cid = some req ∧ req.status = "pending")
    ∧ statusOf (setConversation (HandoffService.create_handoff_request db2 cid cb reason t).2 cid
        (fun c => { c with updated_at := t })) cid = some "requested" := by
  obtain ⟨h1, _, h3, _, h5⟩ := create_handoff_request_fresh db2 cid cb reason t hpend
  constructor
  · exact ⟨_, h3, h1⟩
  · rw [statusOf_setConversation_other _ cid cid
      (fun c => { c with updated_at := t }) (fun c => rfl) (fun c => rfl)]
    exact h5 hconv

/-- C2 (amended): on the non-streaming path (`process_message`, the REST
fallback), an inbound message processed while the conversation is in
automated mode (no pending request) with the explicit-human-request
classifier returning true always leaves a pending `HandoffRequest` for the
conversation and moves its authority to `"requested"`, regardless of the
generator's output.  On the websocket streaming path (`stream_message`),
however, the classifier is never consulted and no handoff request is ever
created: the handoff-request table and every conversation's authority are
left exactly as they were, whatever the streamed generation does. -/
theorem c2_explicit_handoff_paths (db : DB) (cb : String) (cid : Nat) (msg : String)
    (details : ExtractedDetails) (gen : ChatService.GenResult)
    (outcome : ChatService.StreamOutcome) (t : Nat)
    (hcb : db.chatbots.contains cb = true)
    (hconv : (findConversation db cid).isSome = true)
    (hpend : findPendingRequest db cid = none) :
    (∃ resp db2, ChatService.process_message db cb cid msg true details true gen t
        = .ok (resp, db2)
      ∧ (∃ req, findPendingRequest db2 cid = some req ∧ req.status = "pending")
      ∧ statusOf db2 cid = some "requested")
    ∧ ((ChatService.stream_message db cb cid msg true details outcome t).2.1).handoff_requests
        = db.handoff_requests
    ∧ statusOf ((ChatService.stream_message db cb cid msg true details outcome t).2.1) cid
        = statusOf db cid := by
  refine ⟨?_, ?_⟩
  · obtain ⟨db1, hprep⟩ := prepare_chat_run_succeeds db cb cid msg details t hcb hconv
    obtain ⟨hreq1, hstat1, hsome1⟩ := prepare_chat_run_ok_inv db cb cid msg true details t db1 hprep
    have hpend1 : findPendingRequest db1 cid = none := by
      show List.find? _ db1.handoff_requests = none
      rw [hreq1]
      exact hpend
    have hconv1 : (findConversation db1 cid).isSome = true := by
      rw [hsome1]
      exact hconv
    unfold ChatService.process_message
    rw [hprep]
    dsimp only
    refine ⟨_, _, rfl, ?_, ?_⟩
    · refine (process_message_tail _ cid cb _ t ?_ ?_).1
      · exact hpend1
      · exact hconv1
    · refine (process_message_tail _ cid cb _ t ?_ ?_).2
      · exact hpend1
      · exact hconv1
  · unfold ChatService.stream_message
    cases hprep : ChatService.prepare_chat_run db cb cid msg true details t with
    | error e => exact ⟨rfl, rfl⟩
    | ok db1 =>
      obtain ⟨hreq1, hstat1, _⟩ := prepare_chat_run_ok_inv db cb cid msg true details t db1 hprep
      cases outcome with
      | failure chunks errMsg => exact ⟨hreq1, hstat1 cid⟩
      | success chunks =>
        dsimp only
        constructor
        · show (setConversation _ cid _).handoff_requests = db.handoff_requests
          rw [setConversation_handoff_requests]
          exact hreq1
        · rw [statusOf_setConversation_other _ cid cid
            (fun c => { c with updated_at := t }) (fun c => rfl) (fun c => rfl)]
          exact hstat1 cid

/-- A conversation in automated mode, bound to widget session `sessB`, in a
store with no handoff requests. -/
def convAuto : Conversation :=
  { uuid := 3, chatbot_uuid := "cb1", customer_name := some "Anonymous",
    customer_email := none, customer_phone := none, session_id := "sessB",
    client_uuid := some "client1", status := "active", handoff_status := "ai",
    assigned_to_user_uuid := none, created_at := 0, updated_at := 0 }

def dbAuto : DB :=
  { chatbots := ["cb1"], conversations := [convAuto], messages := [],
    handoff_requests := [], topic_stats := [], next_message_id := 1,
    next_request_id := 1, next_stat_id := 1, next_conversation_uuid := 4 }

/-- The websocket relay processing `"I want to talk to a human"` on the
automated path: the streaming generation completes normally. -/
def c2StreamRun : DB × List WsEvent :=
  handle_widget_message dbAuto "cb1" "sessB" 3 "I want to talk to a human" true
    ⟨none, none, none⟩ (.success ["I can help you with that."]) 1

/-- C2 is violated by the code on the websocket streaming path: the relay
handles the inbound customer message `"I want to talk to a human"` while
the conversation's authority is automated, yet afterwards no
`HandoffRequest` exists at all and the authority is still `"ai"` — the
streaming path (`stream_message`, the only generation path the websocket
endpoint uses) never invokes `_user_explicitly_requests_handoff` and never
calls `create_handoff_request`, so the classifier's verdict (true for this
text per the scenario) cannot have any effect there. -/
theorem c2_counterexample :
    statusOf dbAuto 3 = some "ai"
    ∧ (c2StreamRun.1).handoff_requests = []
    ∧ statusOf c2StreamRun.1 3 = some "ai" :=
  ⟨rfl, rfl, rfl⟩

/-- Witness for the amended C2 at the concrete store `dbAuto`: the
non-streaming path with the classifier returning true leaves a pending
request and `"requested"` authority, and the streaming path leaves the
request table and the authority untouched. -/
theorem c2_explicit_handoff_paths_witness :
    (∃ resp db2,
      ChatService.process_message dbAuto "cb1" 3 "I want to talk to a human" true
          ⟨none, none, none⟩ true ⟨"Certainly.", false⟩ 1 = .ok (resp, db2)
        ∧ (∃ req, findPendingRequest db2 3 = some req ∧ req.status = "pending")
        ∧ statusOf db2 3 = some "requested")
    ∧ ((ChatService.stream_message dbAuto "cb1" 3 "I want to talk to a human" true
        ⟨none, none, none⟩ (.success ["Certainly."]) 1).2.1).handoff_requests
        = dbAuto.handoff_requests :=
  ⟨(c2_explicit_handoff_paths dbAuto "cb1" 3 "I want to talk to a human"
      ⟨none, none, none⟩ ⟨"Certainly.", false⟩ (.success ["Certainly."]) 1 rfl rfl rfl).1,
   (c2_explicit_handoff_paths dbAuto "cb1" 3 "I want to talk to a human"
      ⟨none, none, none⟩ ⟨"Certainly.", false⟩ (.success ["Certainly."]) 1 rfl rfl rfl).2.1⟩

/-- An assistant message that already carries feedback and a topic. -/
def msgLiked : Message :=
  { id := 1, conversation_uuid := 3, role := "assistant",
    content := "Here is the answer.", feedback := some "like", created_at := 0,
    topic := some "Pricing" }

def dbFeedback : DB :=
  { dbAuto with messages := [msgLiked], next_message_id := 2 }

/-- C4 is violated by the code for the feedback field: `submit_feedback`
has no already-set check — a second call with a different value simply
overwrites the stored feedback (here `"like"` becomes `"dislike"`), rather
than being a no-op. -/
theorem c4_counterexample :
    (findMessageById dbFeedback 1).map (fun m => m.feedback) = some (some "like")
    ∧ (findMessageById (submit_feedback dbFeedback 1 "dislike").2 1).map
        (fun m => m.feedback) = some (some "dislike") :=
  ⟨rfl, rfl⟩

/-- C4 (amended): the topic field is settable exactly once — when a
message's topic is already non-null, `classify_message_topic` returns the
existing topic and changes nothing (the background classifier is
idempotent).  The feedback field, however, is not set-once: every
successful `submit_feedback` on an assistant message overwrites it with
the new value, already-set or not.  Neither operation changes any other
attribute of the message. -/
theorem c4_feedback_and_topic_writes (db : DB) (mid : Nat) (cb fb : String)
    (llm : Option String) (t : Nat) :
    (∀ m, findMessageById db mid = some m → ∀ tp, m.topic = some tp →
        classify_message_topic db mid cb llm t = (some tp, db))
    ∧ (∀ m, findMessageById db mid = some m → m.role = "assistant" →
        (submit_feedback db mid fb).1 = .success { m with feedback := some fb }
        ∧ findMessageById (submit_feedback db mid fb).2 mid
            = some { m with feedback := some fb }) := by
  constructor
  · intro m hm tp htp
    unfold classify_message_topic
    rw [hm]
    dsimp only
    rw [htp]
  · intro m hm hrole
    have hmid : (m.id == mid) = true := by
      have := List.find?_some hm
      simpa using this
    unfold submit_feedback
    rw [hm]
    dsimp only
    have hb : (!(m.role == "assistant")) = false := by rw [hrole]; rfl
    rw [hb]
    refine ⟨rfl, ?_⟩
    exact find?_point_set (fun (x : Message) => x.id == mid) db.messages
      { m with feedback := some fb } hmid m hm

/-- Witness for the amended C4 at the concrete store `dbFeedback`: the
topic already set on message 1 survives a reclassification attempt
unchanged, while a second feedback submission overwrites `"like"` with
`"dislike"`. -/
theorem c4_feedback_and_topic_writes_witness :
    classify_message_topic dbFeedback 1 "cb1" (some "Billing") 5 = (some "Pricing", dbFeedback)
    ∧ findMessageById (submit_feedback dbFeedback 1 "dislike").2 1
        = some { msgLiked with feedback := some "dislike" } := by
  have h := c4_feedback_and_topic_writes dbFeedback 1 "cb1" "dislike" (some "Billing") 5
  exact ⟨h.1 msgLiked rfl "Pricing" rfl, (h.2 msgLiked rfl rfl).2⟩

/-- After the relay's touch of `updated_at` followed by the detail
extraction, the conversation's `updated_at` is the touch time. -/
theorem updatedAt_after_touch_and_details (db : DB) (cid : Nat) (t : Nat)
    (d : ExtractedDetails) (hconv : (findConversation db cid).isSome = true) :
    (findConversation (apply_conversation_details
        (setConversation db cid (fun c => { c with updated_at := t })) cid d) cid).map
      (fun c => c.updated_at) = some t := by
  unfold apply_conversation_details
  rw [findConversation_setConversation _ cid cid
    (fun c => (update_conversation_details c d).1)
    (fun c => update_conversation_details_uuid c d)]
  rw [findConversation_setConversation db cid cid
    (fun c => { c with updated_at := t }) (fun c => rfl)]
  cases hfc : findConversation db cid with
  | none => rw [hfc] at hconv; simp at hconv
  | some c =>
    have hcu : c.uuid = cid := findConversation_some hfc
    simp [hcu, update_conversation_details_updated_at]

/-- C6: an inbound customer message handled while the conversation's
authority is `"human"` makes the relay persist it as a `role="user"`
message, set the conversation's `updated_at`, and emit exactly one event —
the `new_message` broadcast to the tenant dashboard group: no
`generatorInvoked`, no frame of any kind back to the customer session, and
the loop continues (no `closeConnection`). -/
theorem c6_human_mode_relay (db : DB) (cb sid : String) (cid : Nat) (msg : String)
    (hc : Bool) (details : ExtractedDetails) (outcome : ChatService.StreamOutcome)
    (t : Nat) (conv : Conversation)
    (hconv : findConversation db cid = some conv)
    (hstatus : conv.handoff_status = "human") :
    (handle_widget_message db cb sid cid msg hc details outcome t).2
        = [.broadcastDashboard cb "new_message" cid (some "user")]
    ∧ ((handle_widget_message db cb sid cid msg hc details outcome t).1).messages
        = db.messages ++
          [{ id := db.next_message_id, conversation_uuid := cid, role := "user",
             content := msg, feedback := none, created_at := t, topic := none }]
    ∧ (findConversation (handle_widget_message db cb sid cid msg hc details outcome t).1 cid).map
        (fun c => c.updated_at) = some t := by
  unfold handle_widget_message
  rw [hconv]
  dsimp only
  have hb : (conv.handoff_status == "human") = true := by rw [hstatus]; rfl
  rw [hb]
  refine ⟨rfl, rfl, ?_⟩
  have hconv1 : (findConversation
      { db with
          messages := db.messages ++
            [{ id := db.next_message_id, conversation_uuid := cid, role := "user",
               content := msg, feedback := none, created_at := t, topic := none }]
          next_message_id := db.next_message_id + 1 } cid).isSome = true := by
    show (findConversation db cid).isSome = true
    rw [hconv]
    rfl
  exact updatedAt_after_touch_and_details _ cid t details hconv1

/-- Witness for C6 at the concrete store `dbHuman` (conversation 7 is
human-assigned): the relay emits only the dashboard broadcast. -/
theorem c6_human_mode_relay_witness :
    (handle_widget_message dbHuman "cb1" "sessA" 7 "hello there" true
        ⟨none, none, none⟩ (.success []) 4).2
      = [.broadcastDashboard "cb1" "new_message" 7 (some "user")] :=
  (c6_human_mode_relay dbHuman "cb1" "sessA" 7 "hello there" true
    ⟨none, none, none⟩ (.success []) 4 convHuman rfl rfl).1

/-- The REST `send_message` run for C7: conversation 7 already has
`customer_name = "Alice"`, and the request body supplies `"Bob"`. -/
def c7Run : Except String (Option Nat × DB) :=
  send_message dbHuman "cb1" "Hi" "sessA" (some "Bob") none true
    ⟨none, none, none⟩ false ⟨"Hello!", false⟩ 2

/-- The conversation's customer name after the C7 run. -/
def c7NameAfter : Option (Option String) :=
  match c7Run with
  | .ok (_, db2) => (findConversation db2 7).map (fun c => c.customer_name)
  | .error _ => none

/-- C7 is violated by the code: conversation 7's `customer_name` is already
the non-empty `"Alice"`, yet the REST send-message endpoint overwrites it
with the request body's `"Bob"` — the endpoint assigns any supplied
customer name/email unconditionally, with no already-set check. -/
theorem c7_counterexample :
    (findConversation dbHuman 7).map (fun c => c.customer_name) = some (some "Alice")
    ∧ c7NameAfter = some (some "Bob") :=
  ⟨rfl, rfl⟩

/-- Field-preservation facts for the three extraction blocks. -/
theorem update_email_field_phone (c : Conversation) (d : ExtractedDetails) :
    ((update_email_field c d).1).customer_phone = c.customer_phone := by
  unfold update_email_field
  split <;> rfl

theorem update_email_field_name (c : Conversation) (d : ExtractedDetails) :
    ((update_email_field c d).1).customer_name = c.customer_name := by
  unfold update_email_field
  split <;> rfl

theorem update_phone_field_email (c : Conversation) (d : ExtractedDetails) :
    ((update_phone_field c d).1).customer_email = c.customer_email := by
  unfold update_phone_field
  split <;> rfl

theorem update_phone_field_name (c : Conversation) (d : ExtractedDetails) :
    ((update_phone_field c d).1).customer_name = c.customer_name := by
  unfold update_phone_field
  split <;> rfl

theorem update_name_field_email (c : Conversation) (d : ExtractedDetails) :
    ((update_name_field c d).1).customer_email = c.customer_email := by
  unfold update_name_field
  split <;> rfl

theorem update_name_field_phone (c : Conversation) (d : ExtractedDetails) :
    ((update_name_field c d).1).customer_phone = c.customer_phone := by
  unfold update_name_field
  split <;> rfl

theorem update_email_field_truthy (c : Conversation) (d : ExtractedDetails)
    (h : strTruthy c.customer_email = true) :
    ((update_email_field c d).1).customer_email = c.customer_email := by
  unfold update_email_field
  simp [h]

theorem update_phone_field_truthy (c : Conversation) (d : ExtractedDetails)
    (h : strTruthy c.customer_phone = true) :
    ((update_phone_field c d).1).customer_phone = c.customer_phone := by
  unfold update_phone_field
  simp [h]

theorem update_name_field_truthy (c : Conversation) (d : ExtractedDetails)
    (h : strTruthy c.customer_name = true) (hanon : c.customer_name ≠ some "Anonymous") :
    ((update_name_field c d).1).customer_name = c.customer_name := by
  have hb : (c.customer_name == some "Anonymous") = false := beq_eq_false_iff_ne.mpr hanon
  unfold update_name_field
  simp [h, hb]

/-- The three blocks compose sequentially. -/
theorem update_conversation_details_eq (c : Conversation) (d : ExtractedDetails) :
    (update_conversation_details c d).1
      = (update_name_field ((update_phone_field ((update_email_field c d).1) d).1) d).1 := rfl

/-- C7 (amended): the detail-extraction path never overwrites — a truthy
`customer_email` or `customer_phone` is always kept, and a truthy
`customer_name` is kept unless it is the `"Anonymous"` placeholder (which
the extractor may replace).  The REST send-message endpoint, by contrast,
overwrites `customer_name` and `customer_email` with any truthy values
supplied in the request body, even when already set. -/
theorem c7_customer_identity_writes (c : Conversation) (d : ExtractedDetails)
    (n e : Option String) :
    (strTruthy c.customer_email = true →
      ((update_conversation_details c d).1).customer_email = c.customer_email)
    ∧ (strTruthy c.customer_phone = true →
      ((update_conversation_details c d).1).customer_phone = c.customer_phone)
    ∧ (strTruthy c.customer_name = true → c.customer_name ≠ some "Anonymous" →
      ((update_conversation_details c d).1).customer_name = c.customer_name)
    ∧ (strTruthy n = true → (apply_request_customer_info c n e).customer_name = n)
    ∧ (strTruthy e = true → (apply_request_customer_info c n e).customer_email = e) := by
  refine ⟨?_, ?_, ?_, ?_, ?_⟩
  · intro h
    have h1 : strTruthy ((update_phone_field ((update_email_field c d).1) d).1).customer_email
        = true := by
      rw [update_phone_field_email, update_email_field_truthy c d h]
      exact h
    rw [update_conversation_details_eq, update_name_field_email,
      update_phone_field_email, update_email_field_truthy c d h]
  · intro h
    have h1 : strTruthy ((update_email_field c d).1).customer_phone = true := by
      rw [update_email_field_phone]
      exact h
    rw [update_conversation_details_eq, update_name_field_phone,
      update_phone_field_truthy _ d h1, update_email_field_phone]
  · intro h hanon
    have hp : ((update_phone_field ((update_email_field c d).1) d).1).customer_name
        = c.customer_name := by
      rw [update_phone_field_name, update_email_field_name]
    have h1 : strTruthy ((update_phone_field ((update_email_field c d).1) d).1).customer_name
        = true := by
      rw [hp]
      exact h
    have h2 : ((update_phone_field ((update_email_field c d).1) d).1).customer_name
        ≠ some "Anonymous" := by
      rw [hp]
      exact hanon
    rw [update_conversation_details_eq, update_name_field_truthy _ d h1 h2, hp]
  · intro h
    unfold apply_request_customer_info
    dsimp only
    simp only [h, if_true]
    split
    all_goals rfl
  · intro h
    unfold apply_request_customer_info
    dsimp only
    simp only [h, if_true]

/-- Witness for the amended C7: extraction on a conversation whose fields
are all set (name not `"Anonymous"`) changes nothing even when the
extractors fire, while the REST update step overwrites name and email. -/
theorem c7_customer_identity_writes_witness :
    ((update_conversation_details
        { convHuman with customer_email := some "alice@x.io", customer_phone := some "555-123-4567" }
        ⟨some "bob@x.io", some "555-999-0000", some "Bob"⟩).1).customer_name = some "Alice"
    ∧ (apply_request_customer_info convHuman (some "Bob") (some "bob@x.io")).customer_name
        = some "Bob" := by
  have h := c7_customer_identity_writes
    { convHuman with customer_email := some "alice@x.io", customer_phone := some "555-123-4567" }
    ⟨some "bob@x.io", some "555-999-0000", some "Bob"⟩ (some "Bob") (some "bob@x.io")
  refine ⟨h.2.2.1 rfl (by decide), ?_⟩
  have h2 := c7_customer_identity_writes convHuman
    ⟨none, none, none⟩ (some "Bob") (some "bob@x.io")
  exact h2.2.2.2.1 rfl

/-- The relay's automated path with a mid-stream generation failure whose
exception text carries upstream detail. -/
def c8ErrRun : DB × List WsEvent :=
  handle_widget_message dbAuto "cb1" "sessB" 3 "What is the price?" true
    ⟨none, none, none⟩ (.failure [] "OpenAI API error: invalid api key sk-test-123") 1

/-- C8 is violated by the code in its non-sensitivity part: on a generation
exception the relay does send `typing:false` followed by an `error` frame
and keeps the connection open, but the frame's message is `str(e)` — the
raw internal exception text, upstream detail included — not a generic
non-sensitive message (the source comments
`# Send the actual error message to the client`). -/
theorem c8_counterexample :
    c8ErrRun.2 = [WsEvent.sendToSession "sessB" (.typing true),
      WsEvent.generatorInvoked 3,
      WsEvent.sendToSession "sessB" (.typing false),
      WsEvent.sendToSession "sessB"
        (.errorFrame "OpenAI API error: invalid api key sk-test-123")] :=
  rfl

/-- C8 (amended): for every exception raised during generation on the relay
path (after a successful prepare), the relay forwards whatever chunks were
already streamed, then sends `typing:false` followed by an `error` frame
whose message is the exception's own text (falling back to
`"Failed to process message"` when that text is empty) — internal detail is
exposed verbatim, not replaced by a generic message — and the connection is
not closed (the read loop continues). -/
theorem c8_generation_error_frames (db : DB) (cb sid : String) (cid : Nat) (msg : String)
    (details : ExtractedDetails) (chunks : List String) (e : String) (t : Nat)
    (conv : Conversation)
    (hcb : db.chatbots.contains cb = true)
    (hconv : findConversation db cid = some conv)
    (hstatus : conv.handoff_status = "ai") :
    (handle_widget_message db cb sid cid msg true details (.failure chunks e) t).2
      = [WsEvent.sendToSession sid (.typing true), WsEvent.generatorInvoked cid]
        ++ chunks.map (fun ch => WsEvent.sendToSession sid (.messageChunk ch))
        ++ [WsEvent.sendToSession sid (.typing false),
            WsEvent.sendToSession sid
              (.errorFrame (if e == "" then "Failed to process message" else e))]
    ∧ WsEvent.closeConnection
        ∉ (handle_widget_message db cb sid cid msg true details (.failure chunks e) t).2 := by
  obtain ⟨db1, hprep⟩ := prepare_chat_run_succeeds db cb cid msg details t hcb
    (by rw [hconv]; rfl)
  have heq : (handle_widget_message db cb sid cid msg true details (.failure chunks e) t).2
      = [WsEvent.sendToSession sid (.typing true), WsEvent.generatorInvoked cid]
        ++ chunks.map (fun ch => WsEvent.sendToSession sid (.messageChunk ch))
        ++ [WsEvent.sendToSession sid (.typing false),
            WsEvent.sendToSession sid
              (.errorFrame (if e == "" then "Failed to process message" else e))] := by
    unfold handle_widget_message
    rw [hconv]
    dsimp only
    have h1 : (conv.handoff_status == "human") = false := by rw [hstatus]; rfl
    have h2 : (conv.handoff_status == "requested") = false := by rw [hstatus]; rfl
    rw [h1, h2]
    simp only [Bool.false_eq_true, if_false]
    unfold ChatService.stream_message
    rw [hprep]
  refine ⟨heq, ?_⟩
  rw [heq]
  simp

/-- Witness for the amended C8 at the concrete store `dbAuto`: one chunk was
already streamed, then the generation failed with an upstream error text
that ends up verbatim in the error frame. -/
theorem c8_generation_error_frames_witness :
    (handle_widget_message dbAuto "cb1" "sessB" 3 "hello" true ⟨none, none, none⟩
        (.failure ["Well"] "upstream 502") 1).2
      = [WsEvent.sendToSession "sessB" (.typing true), WsEvent.generatorInvoked 3]
        ++ ["Well"].map (fun ch => WsEvent.sendToSession "sessB" (.messageChunk ch))
        ++ [WsEvent.sendToSession "sessB" (.typing false),
            WsEvent.sendToSession "sessB"
              (.errorFrame (if "upstream 502" == "" then "Failed to process message"
                else "upstream 502"))] :=
  (c8_generation_error_frames dbAuto "cb1" "sessB" 3 "hello" ⟨none, none, none⟩
    ["Well"] "upstream 502" 1 convAuto rfl rfl rfl).1

/-! ## Lemmas on the connection registry -/

theorem alistGet_alistUpdate {α : Type} (l : List (String × α)) (k k2 : String) (f : α → α) :
    alistGet (alistUpdate l k f) k2
      = if (k2 == k) = true then (alistGet l k2).map f else alistGet l k2 := by
  unfold alistGet alistUpdate
  rw [find?_map_preserve (fun p => p.1 == k2)
    (fun p => if p.1 == k then (p.1, f p.2) else p) l ?hp]
  case hp =>
    intro p
    by_cases hpk : (p.1 == k) = true
    · simp [hpk]
    · simp only [Bool.not_eq_true] at hpk
      simp [hpk]
  cases hf : l.find? (fun p => p.1 == k2) with
  | none => split <;> rfl
  | some p0 =>
    have hp0 : p0.1 = k2 := by simpa using List.find?_some hf
    by_cases hkk : (k2 == k) = true
    · have hk : k2 = k := by simpa using hkk
      simp [hkk, hp0, hk]
    · simp only [Bool.not_eq_true] at hkk
      have hk : ¬(k2 = k) := beq_eq_false_iff_ne.mp hkk
      simp [hkk, hp0, hk]

theorem alistGet_any {α : Type} (l : List (String × α)) (k : String) (v : α)
    (h : alistGet l k = some v) : l.any (fun p => p.1 == k) = true := by
  unfold alistGet at h
  cases hf : l.find? (fun p => p.1 == k) with
  | none => rw [hf] at h; simp at h
  | some p0 =>
    have hp := List.find?_some hf
    simp only [List.any_eq_true]
    exact ⟨p0, List.mem_of_find?_eq_some hf, hp⟩

theorem dashDiscard_session_map (m : ConnMgr) (cb : String) (conn : Nat) :
    (ConnMgr.dashDiscard m cb conn).dashboard_session_map = m.dashboard_session_map := by
  unfold ConnMgr.dashDiscard
  repeat' split
  all_goals rfl

theorem dashDiscard_get_self (m : ConnMgr) (cb : String) (conn : Nat) (g : List Nat)
    (hmap : (m.dashboard_session_map.find? (fun p => p.2 == cb)).isSome = true)
    (hg : alistGet m.dashboard_connections cb = some g) :
    alistGet (ConnMgr.dashDiscard m cb conn).dashboard_connections cb
      = some (g.filter (fun c => !(c == conn))) := by
  unfold ConnMgr.dashDiscard
  cases hf : m.dashboard_session_map.find? (fun p => p.2 == cb) with
  | none => rw [hf] at hmap; simp at hmap
  | some p =>
    rw [alistGet_any m.dashboard_connections cb g hg]
    show alistGet (alistUpdate m.dashboard_connections cb
      (fun conns => conns.filter (fun c => !(c == conn)))) cb = _
    rw [alistGet_alistUpdate]
    simp [hg]

theorem dashDiscard_get_other (m : ConnMgr) (cb : String) (conn : Nat) (k : String)
    (hk : (k == cb) = false) :
    alistGet (ConnMgr.dashDiscard m cb conn).dashboard_connections k
      = alistGet m.dashboard_connections k := by
  unfold ConnMgr.dashDiscard
  split
  · rfl
  · split
    · show alistGet (alistUpdate m.dashboard_connections cb
        (fun conns => conns.filter (fun c => !(c == conn)))) k = _
      rw [alistGet_alistUpdate]
      simp [hk]
    · rfl

/-- The send loop attempts every connection of the snapshot, in order,
whatever the individual outcomes. -/
theorem broadcast_attempts (cb : String) (send_ok : Nat → Bool) :
    ∀ (l : List Nat) (a : ConnMgr × List Nat),
      (l.foldl (ConnMgr.broadcastStep cb send_ok) a).2 = a.2 ++ l := by
  intro l
  induction l with
  | nil => intro a; simp
  | cons x t ih =>
    intro a
    rw [List.foldl_cons, ih]
    unfold ConnMgr.broadcastStep
    by_cases hx : send_ok x = true
    · simp [hx]
    · simp only [Bool.not_eq_true] at hx
      simp [hx]

/-- Through the send loop, the chatbot's group accumulates exactly the
per-failure discards, the session map is untouched, and every other
chatbot's group is untouched. -/
theorem broadcast_group_inv (cb : String) (send_ok : Nat → Bool) :
    ∀ (l : List Nat) (mgr : ConnMgr) (acc : List Nat) (g : List Nat),
      (mgr.dashboard_session_map.find? (fun p => p.2 == cb)).isSome = true →
      alistGet mgr.dashboard_connections cb = some g →
      alistGet ((l.foldl (ConnMgr.broadcastStep cb send_ok) (mgr, acc)).1).dashboard_connections cb
          = some (l.foldl (fun h conn => if send_ok conn then h
              else h.filter (fun c => !(c == conn))) g)
        ∧ (∀ k, (k == cb) = false →
            alistGet ((l.foldl (ConnMgr.broadcastStep cb send_ok) (mgr, acc)).1).dashboard_connections k
              = alistGet mgr.dashboard_connections k) := by
  intro l
  induction l with
  | nil =>
    intro mgr acc g hmap hg
    exact ⟨by simpa using hg, fun k hk => rfl⟩
  | cons x t ih =>
    intro mgr acc g hmap hg
    rw [List.foldl_cons, List.foldl_cons]
    by_cases hx : send_ok x = true
    · have hstep : ConnMgr.broadcastStep cb send_ok (mgr, acc) x = (mgr, acc ++ [x]) := by
        unfold ConnMgr.broadcastStep
        simp [hx]
      rw [hstep]
      simp only [hx, if_true]
      exact ih mgr (acc ++ [x]) g hmap hg
    · simp only [Bool.not_eq_true] at hx
      have hstep : ConnMgr.broadcastStep cb send_ok (mgr, acc) x
          = (ConnMgr.dashDiscard mgr cb x, acc ++ [x]) := by
        unfold ConnMgr.broadcastStep
        simp [hx]
      rw [hstep]
      simp only [hx, Bool.false_eq_true, if_false]
      have hmap1 : ((ConnMgr.dashDiscard mgr cb x).dashboard_session_map.find?
          (fun p => p.2 == cb)).isSome = true := by
        rw [dashDiscard_session_map]
        exact hmap
      have hg1 := dashDiscard_get_self mgr cb x g hmap hg
      obtain ⟨ha, hb⟩ := ih (ConnMgr.dashDiscard mgr cb x) (acc ++ [x])
        (g.filter (fun c => !(c == x))) hmap1 hg1
      refine ⟨ha, ?_⟩
      intro k hk
      rw [hb k hk, dashDiscard_get_other mgr cb x k hk]

/-- The ghost fold of per-failure discards is one filter. -/
theorem fold_discard (send_ok : Nat → Bool) :
    ∀ (l g : List Nat),
      l.foldl (fun h conn => if send_ok conn then h
          else h.filter (fun c => !(c == conn))) g
        = g.filter (fun x => l.all (fun conn => send_ok conn || !(x == conn))) := by
  intro l
  induction l with
  | nil => intro g; simp
  | cons a t ih =>
    intro g
    rw [List.foldl_cons]
    by_cases ha : send_ok a = true
    · simp only [ha, if_true]
      rw [ih]
      apply List.filter_congr
      intro x hx
      simp [List.all_cons, ha]
    · simp only [Bool.not_eq_true] at ha
      simp only [ha, Bool.false_eq_true, if_false]
      rw [ih, List.filter_filter]
      apply List.filter_congr
      intro x hx
      simp [List.all_cons, ha, Bool.and_comm]

/-- On the group itself, the survived-all-discards condition is just
`send_ok`. -/
theorem all_cond_filter (send_ok : Nat → Bool) (conns : List Nat) :
    conns.filter (fun x => conns.all (fun conn => send_ok conn || !(x == conn)))
      = conns.filter send_ok := by
  apply List.filter_congr
  intro x hx
  by_cases hsx : send_ok x = true
  · rw [hsx]
    have : conns.all (fun conn => send_ok conn || !(x == conn)) = true := by
      rw [List.all_eq_true]
      intro c hc
      by_cases hxc : x = c
      · subst hxc
        simp [hsx]
      · simp [hxc]
    rw [this]
  · simp only [Bool.not_eq_true] at hsx
    rw [hsx]
    have : conns.all (fun conn => send_ok conn || !(x == conn)) = false := by
      rw [Bool.eq_false_iff]
      intro hall
      have hx2 := List.all_eq_true.mp hall x hx
      simp [hsx] at hx2
    rw [this]

/-- Without a reverse-index entry for the chatbot, the cleanup is a
no-op. -/
theorem dashDiscard_no_map (m : ConnMgr) (cb : String) (conn : Nat)
    (h : m.dashboard_session_map.find? (fun p => p.2 == cb) = none) :
    ConnMgr.dashDiscard m cb conn = m := by
  unfold ConnMgr.dashDiscard
  rw [h]

/-- Without a reverse-index entry for the chatbot, the whole send loop
leaves the registry untouched. -/
theorem broadcast_no_map_inv (cb : String) (send_ok : Nat → Bool) :
    ∀ (l : List Nat) (mgr : ConnMgr) (acc : List Nat),
      mgr.dashboard_session_map.find? (fun p => p.2 == cb) = none →
      (l.foldl (ConnMgr.broadcastStep cb send_ok) (mgr, acc)).1 = mgr := by
  intro l
  induction l with
  | nil =>
    intro mgr acc h
    rfl
  | cons x t ih =>
    intro mgr acc h
    rw [List.foldl_cons]
    by_cases hx : send_ok x = true
    · have hstep : ConnMgr.broadcastStep cb send_ok (mgr, acc) x = (mgr, acc ++ [x]) := by
        unfold ConnMgr.broadcastStep
        simp [hx]
      rw [hstep]
      exact ih mgr (acc ++ [x]) h
    · simp only [Bool.not_eq_true] at hx
      have hstep : ConnMgr.broadcastStep cb send_ok (mgr, acc) x = (mgr, acc ++ [x]) := by
        unfold ConnMgr.broadcastStep
        simp [hx, dashDiscard_no_map mgr cb x h]
      rw [hstep]
      exact ih mgr (acc ++ [x]) h

/-- C9 (amended): `broadcast_to_dashboard` for a chatbot with no (or an
empty) dashboard group performs zero send attempts and changes nothing;
otherwise it attempts delivery to every connection of the group — send
failures never abort the loop and never raise.  Whether a failed connection
is actually removed depends on the reverse index: while
`dashboard_session_map` still records some session for the chatbot, each
failed connection, and only it, is removed from that chatbot's group (all
other groups untouched); when no session is recorded for the chatbot — a
state `disconnect` can reach by deleting a shared session-map entry while
connections remain — the cleanup gives up and the dead connections stay in
the group. -/
theorem c9_broadcast_to_dashboard_behavior (m : ConnMgr) (cb : String)
    (send_ok : Nat → Bool) :
    ((alistGet m.dashboard_connections cb = none
        ∨ alistGet m.dashboard_connections cb = some []) →
      ConnMgr.broadcast_to_dashboard m cb send_ok = (m, []))
    ∧ (∀ conns, alistGet m.dashboard_connections cb = some conns →
        (ConnMgr.broadcast_to_dashboard m cb send_ok).2 = conns)
    ∧ (∀ conns, alistGet m.dashboard_connections cb = some conns →
        (m.dashboard_session_map.find? (fun p => p.2 == cb)).isSome = true →
        alistGet ((ConnMgr.broadcast_to_dashboard m cb send_ok).1).dashboard_connections cb
            = some (conns.filter send_ok)
          ∧ (∀ k, (k == cb) = false →
              alistGet ((ConnMgr.broadcast_to_dashboard m cb send_ok).1).dashboard_connections k
                = alistGet m.dashboard_connections k))
    ∧ (∀ conns, alistGet m.dashboard_connections cb = some conns →
        m.dashboard_session_map.find? (fun p => p.2 == cb) = none →
        alistGet ((ConnMgr.broadcast_to_dashboard m cb send_ok).1).dashboard_connections cb
          = some conns) := by
  refine ⟨?_, ?_, ?_, ?_⟩
  · intro h
    unfold ConnMgr.broadcast_to_dashboard
    rcases h with h | h
    · rw [h]
    · rw [h]
      rfl
  · intro conns hg
    unfold ConnMgr.broadcast_to_dashboard
    rw [hg]
    cases conns with
    | nil => rfl
    | cons x t =>
      simp only [List.isEmpty_cons, Bool.false_eq_true, if_false]
      rw [broadcast_attempts cb send_ok (x :: t) (m, [])]
      rfl
  · intro conns hg hmap
    unfold ConnMgr.broadcast_to_dashboard
    rw [hg]
    cases conns with
    | nil =>
      refine ⟨by simpa using hg, fun k hk => rfl⟩
    | cons x t =>
      simp only [List.isEmpty_cons, Bool.false_eq_true, if_false]
      obtain ⟨ha, hb⟩ := broadcast_group_inv cb send_ok (x :: t) m [] (x :: t) hmap hg
      refine ⟨?_, hb⟩
      rw [ha, fold_discard, all_cond_filter]
  · intro conns hg hmap
    unfold ConnMgr.broadcast_to_dashboard
    rw [hg]
    cases conns with
    | nil => simpa using hg
    | cons x t =>
      simp only [List.isEmpty_cons, Bool.false_eq_true, if_false]
      rw [broadcast_no_map_inv cb send_ok (x :: t) m [] hmap]
      exact hg

/-- A registry with one dashboard group of three connections for `cb1`. -/
def mgrC9 : ConnMgr :=
  { active_connections := [],
    dashboard_connections := [("cb1", [10, 11, 12])],
    dashboard_session_map := [("dashboard_s1", "cb1")] }

/-- A reachable registry state with an orphaned dashboard connection:
connections 20 and 21 register under the same dashboard session key for
`cb1`, then connection 20 disconnects — `disconnect` removes 20 from the
group but deletes the shared reverse-index entry unconditionally, leaving
connection 21 in the group with no session mapped to `cb1`. -/
def mgrShared : ConnMgr :=
  ConnMgr.disconnect
    (ConnMgr.connect
      (ConnMgr.connect
        { active_connections := [], dashboard_connections := [],
          dashboard_session_map := [] }
        20 "dashboard_s1" (some "cb1"))
      21 "dashboard_s1" (some "cb1"))
    20 "dashboard_s1"

/-- C9 is violated by the code in its removal part: in the reachable
registry state `mgrShared` (built by two `connect`s sharing one dashboard
session key and one `disconnect`), a broadcast whose send to the remaining
connection 21 fails does attempt the send without raising, but does NOT
remove the dead connection — the cleanup scans `dashboard_session_map`,
finds no session mapped to the chatbot, and leaves the group as it was. -/
theorem c9_counterexample :
    mgrShared.dashboard_connections = [("cb1", [21])]
    ∧ mgrShared.dashboard_session_map = []
    ∧ (ConnMgr.broadcast_to_dashboard mgrShared "cb1" (fun _ => false)).2 = [21]
    ∧ alistGet ((ConnMgr.broadcast_to_dashboard mgrShared "cb1"
        (fun _ => false)).1).dashboard_connections "cb1" = some [21] :=
  ⟨rfl, rfl, rfl, rfl⟩

/-- Witness for the amended C9: at `mgrC9` (reverse-index entry present,
connection 11 dead) all three sends are attempted and exactly connection 11
is removed; at `mgrShared` (reverse-index entry gone) the failing
connection 21 stays in the group. -/
theorem c9_broadcast_to_dashboard_behavior_witness :
    (ConnMgr.broadcast_to_dashboard mgrC9 "cb1" (fun c => !(c == 11))).2 = [10, 11, 12]
    ∧ alistGet ((ConnMgr.broadcast_to_dashboard mgrC9 "cb1"
        (fun c => !(c == 11))).1).dashboard_connections "cb1" = some [10, 12]
    ∧ alistGet ((ConnMgr.broadcast_to_dashboard mgrShared "cb1"
        (fun _ => false)).1).dashboard_connections "cb1" = some [21] := by
  have h := c9_broadcast_to_dashboard_behavior mgrC9 "cb1" (fun c => !(c == 11))
  have h2 := c9_broadcast_to_dashboard_behavior mgrShared "cb1" (fun _ => false)
  exact ⟨h.2.1 [10, 11, 12] rfl, (h.2.2.1 [10, 11, 12] rfl rfl).1,
    h2.2.2.2 [21] rfl rfl⟩

/-! ## Lemmas on conversation binding -/

/-- Store well-formedness backing the fresh-uuid modelling: conversation
uuids are pairwise distinct (primary key) and below the freshness
counter. -/
def DBWf (db : DB) : Prop :=
  (db.conversations.map (fun c => c.uuid)).Nodup
  ∧ ∀ c ∈ db.conversations, c.uuid < db.next_conversation_uuid

theorem find_active_some (db : DB) (cb sid : String) (c : Conversation)
    (h : ChatService.find_active_conversation db cb sid = some c) :
    c ∈ db.conversations ∧ c.chatbot_uuid = cb ∧ c.session_id = sid ∧ c.status = "active" := by
  have hp := List.find?_some h
  have hm := List.mem_of_find?_eq_some h
  simp only [Bool.and_eq_true, beq_iff_eq] at hp
  exact ⟨hm, hp.1.1, hp.1.2, hp.2⟩

/-- The two behaviors of `get_or_create_conversation`: reuse exactly the
active conversation found for this chatbot and session id, or append a new
conversation carrying the fresh uuid. -/
theorem get_or_create_conversation_spec (db : DB) (cb sid : String) (cl : Option String)
    (t : Nat) :
    (∀ c0, ChatService.find_active_conversation db cb sid = some c0 →
      ChatService.get_or_create_conversation db cb sid cl t = (c0, db))
    ∧ (ChatService.find_active_conversation db cb sid = none →
      ∃ c1, ChatService.get_or_create_conversation db cb sid cl t
          = (c1, { db with
              conversations := db.conversations ++ [c1]
              next_conversation_uuid := db.next_conversation_uuid + 1 })
        ∧ c1.uuid = db.next_conversation_uuid ∧ c1.session_id = sid
        ∧ c1.chatbot_uuid = cb ∧ c1.status = "active") := by
  constructor
  · intro c0 h
    unfold ChatService.get_or_create_conversation
    rw [h]
  · intro h
    unfold ChatService.get_or_create_conversation
    rw [h]
    exact ⟨_, rfl, rfl, rfl, rfl, rfl⟩

/-- C10: conversation binding is keyed by the session id alone —
`get_or_create_conversation` returns an existing conversation exactly when
an active conversation with this chatbot and this exact session id exists,
and otherwise appends a brand-new one; two different session ids (sharing
whatever client id) always receive distinct conversation uuids; and a
message stored under one conversation never appears in the message listing
of a different conversation. -/
theorem c10_session_scoped_binding (db : DB) (cb sA sB : String) (clA clB : Option String)
    (t1 t2 : Nat) (hwf : DBWf db) (hne : sA ≠ sB) :
    (∀ c0, ChatService.find_active_conversation db cb sA = some c0 →
        ChatService.get_or_create_conversation db cb sA clA t1 = (c0, db))
    ∧ (ChatService.find_active_conversation db cb sA = none →
        (ChatService.get_or_create_conversation db cb sA clA t1).1.uuid
            = db.next_conversation_uuid
        ∧ (ChatService.get_or_create_conversation db cb sA clA t1).2.conversations
            = db.conversations ++ [(ChatService.get_or_create_conversation db cb sA clA t1).1])
    ∧ (ChatService.get_or_create_conversation
          ((ChatService.get_or_create_conversation db cb sA clA t1).2) cb sB clB t2).1.uuid
        ≠ (ChatService.get_or_create_conversation db cb sA clA t1).1.uuid
    ∧ (∀ (dbx : DB) (cA cB : Nat), cA ≠ cB →
        ∀ msg ∈ get_conversation_messages dbx cA 1000 0,
          msg ∉ get_conversation_messages dbx cB 1000 0) := by
  obtain ⟨hnd, hlt⟩ := hwf
  refine ⟨(get_or_create_conversation_spec db cb sA clA t1).1, ?_, ?_, ?_⟩
  · intro h
    obtain ⟨c1, he, hu, _, _, _⟩ := (get_or_create_conversation_spec db cb sA clA t1).2 h
    rw [he]
    exact ⟨hu, rfl⟩
  · cases hfA : ChatService.find_active_conversation db cb sA with
    | some c1 =>
      have e1 := (get_or_create_conversation_spec db cb sA clA t1).1 c1 hfA
      rw [e1]
      obtain ⟨hm1, _, hs1, _⟩ := find_active_some db cb sA c1 hfA
      cases hfB : ChatService.find_active_conversation db cb sB with
      | some c2 =>
        have e2 := (get_or_create_conversation_spec db cb sB clB t2).1 c2 hfB
        rw [e2]
        obtain ⟨hm2, _, hs2, _⟩ := find_active_some db cb sB c2 hfB
        intro heq
        have : c2 = c1 := List.inj_on_of_nodup_map hnd hm2 hm1 heq
        rw [this, hs1] at hs2
        exact hne hs2
      | none =>
        obtain ⟨c2, e2, hu2, _, _, _⟩ := (get_or_create_conversation_spec db cb sB clB t2).2 hfB
        rw [e2]
        dsimp only
        have hl : c1.uuid < db.next_conversation_uuid := hlt c1 hm1
        rw [hu2]
        omega
    | none =>
      obtain ⟨c1, e1, hu1, hs1, _, _⟩ := (get_or_create_conversation_spec db cb sA clA t1).2 hfA
      rw [e1]
      cases hfB : ChatService.find_active_conversation
          { db with
              conversations := db.conversations ++ [c1]
              next_conversation_uuid := db.next_conversation_uuid + 1 } cb sB with
      | some c2 =>
        have e2 := (get_or_create_conversation_spec _ cb sB clB t2).1 c2 hfB
        rw [e2]
        obtain ⟨hm2, _, hs2, _⟩ := find_active_some _ cb sB c2 hfB
        have hm2' : c2 ∈ db.conversations := by
          rcases List.mem_append.mp hm2 with h | h
          · exact h
          · exfalso
            have : c2 = c1 := by simpa using h
            rw [this, hs1] at hs2
            exact hne hs2
        have hl : c2.uuid < db.next_conversation_uuid := hlt c2 hm2'
        dsimp only
        rw [hu1]
        omega
      | none =>
        obtain ⟨c2, e2, hu2, _, _, _⟩ :=
          (get_or_create_conversation_spec _ cb sB clB t2).2 hfB
        rw [e2]
        dsimp only at hu2 ⊢
        rw [hu2, hu1]
        omega
  · intro dbx cA cB hab msg hmA hmB
    unfold get_conversation_messages at hmA hmB
    have hA : msg ∈ dbx.messages.filter (fun m => m.conversation_uuid == cA) :=
      List.mem_of_mem_drop (List.mem_of_mem_take hmA)
    have hB : msg ∈ dbx.messages.filter (fun m => m.conversation_uuid == cB) :=
      List.mem_of_mem_drop (List.mem_of_mem_take hmB)
    have hA2 : msg.conversation_uuid = cA := by simpa using (List.mem_filter.mp hA).2
    have hB2 : msg.conversation_uuid = cB := by simpa using (List.mem_filter.mp hB).2
    rw [hA2] at hB2
    exact hab hB2

/-- Witness for C10 at a concrete store: sessions `sessB` (bound to
conversation 3) and `sessC` (new) share client id `client1`, yet the second
call mints a fresh conversation uuid distinct from the first's. -/
theorem c10_session_scoped_binding_witness :
    (ChatService.get_or_create_conversation
        ((ChatService.get_or_create_conversation dbAuto "cb1" "sessB" (some "client1") 1).2)
        "cb1" "sessC" (some "client1") 2).1.uuid
      ≠ (ChatService.get_or_create_conversation dbAuto "cb1" "sessB" (some "client1") 1).1.uuid :=
  (c10_session_scoped_binding dbAuto "cb1" "sessB" "sessC" (some "client1") (some "client1")
    1 2 ⟨by decide, by decide⟩ (by decide)).2.2.1

end SimpleChat
